import Mathlib

set_option maxRecDepth 8000

/-!
Verification development for an SNES emulator core (Rust sources:
memory.rs, ppu.rs, opcodes.rs, cpu.rs, system.rs).  Machine bytes and
words are modelled as Nat with explicit masking where the Rust types
truncate; Vec-backed stores are modelled as a length together with a
total index function, with out-of-range reads handled exactly as the
corresponding Rust expressions (get().copied().unwrap_or(0) versus a
length guard versus an unguarded index that would abort).  HashMap
register files are modelled as functions into Option Nat.
-/

namespace Snes

/-- RomType mirrors memory.rs: the cartridge layout variant. -/
inductive RomType where
  | LoRom
  | HiRom
deriving DecidableEq, Repr

/-- Memory mirrors the Memory struct of memory.rs.  wram/vram/oam/cgram are
fixed-size arrays (total functions, sizes 0x20000/0x10000/0x220/0x200); rom
and sram are Vec u8, modelled as a length plus an index function; registers
is the sparse HashMap u16 to u8. -/
structure Memory where
  wram : Nat → Nat
  romLen : Nat
  romData : Nat → Nat
  vram : Nat → Nat
  oam : Nat → Nat
  cgram : Nat → Nat
  sramLen : Nat
  sramData : Nat → Nat
  registers : Nat → Option Nat
  romType : RomType
  sramSize : Nat

/-- romGet models rom.get(i).copied().unwrap_or(0). -/
def Memory.romGet (m : Memory) (i : Nat) : Nat :=
  if i < m.romLen then m.romData i else 0

/-- sramGet models sram.get(i).copied().unwrap_or(0). -/
def Memory.sramGet (m : Memory) (i : Nat) : Nat :=
  if i < m.sramLen then m.sramData i else 0

/-- insertReg models HashMap::insert on the sparse register file. -/
def insertReg (r : Nat → Option Nat) (k v : Nat) : Nat → Option Nat :=
  fun i => if i = k then some v else r i

/-- readPpuRegisters mirrors Memory::read_ppu_registers (memory.rs): the
arms 0x2134..=0x2136 read the sparse map, 0x2137..0x213F are hardwired to
zero, everything else reads the sparse map. -/
def Memory.readPpuRegisters (m : Memory) (addr : Nat) : Nat :=
  if 0x2134 ≤ addr ∧ addr ≤ 0x2136 then (m.registers addr).getD 0
  else if addr = 0x2137 then 0
  else if addr = 0x2138 then 0
  else if addr = 0x2139 then 0
  else if addr = 0x213A then 0
  else if addr = 0x213B then 0
  else if addr = 0x213C then 0
  else if addr = 0x213D then 0
  else if addr = 0x213E then 0
  else if addr = 0x213F then 0
  else (m.registers addr).getD 0

/-- writePpuRegisters mirrors Memory::write_ppu_registers: VRAM address
latches at 0x2116/7, VRAM data ports 0x2118/9, OAM latches 0x2102/3 and
data port 0x2104, CGRAM latch 0x2121 and data port 0x2122; every other
register address stores into the sparse map. -/
def Memory.writePpuRegisters (m : Memory) (addr value : Nat) : Memory :=
  if addr = 0x2116 then { m with registers := insertReg m.registers 0x2116 value }
  else if addr = 0x2117 then { m with registers := insertReg m.registers 0x2117 value }
  else if addr = 0x2118 then
    let addrLow := (m.registers 0x2116).getD 0
    let addrHigh := (m.registers 0x2117).getD 0
    let vramAddr := (addrHigh <<< 8) ||| addrLow
    if vramAddr < 0x10000 then
      { m with vram := fun i => if i = vramAddr then value else m.vram i }
    else m
  else if addr = 0x2119 then
    let addrLow := (m.registers 0x2116).getD 0
    let addrHigh := (m.registers 0x2117).getD 0
    let vramAddr := (addrHigh <<< 8) ||| addrLow
    if vramAddr + 1 < 0x10000 then
      { m with vram := fun i => if i = vramAddr + 1 then value else m.vram i }
    else m
  else if addr = 0x2102 then { m with registers := insertReg m.registers addr value }
  else if addr = 0x2103 then { m with registers := insertReg m.registers addr value }
  else if addr = 0x2104 then
    let addrLow := (m.registers 0x2102).getD 0
    let addrHigh := (m.registers 0x2103).getD 0
    let oamAddr := (addrHigh <<< 8) ||| addrLow
    if oamAddr < 0x220 then
      { m with oam := fun i => if i = oamAddr then value else m.oam i }
    else m
  else if addr = 0x2121 then { m with registers := insertReg m.registers addr value }
  else if addr = 0x2122 then
    let cgramAddr := (m.registers 0x2121).getD 0
    if cgramAddr < 0x200 then
      { m with cgram := fun i => if i = cgramAddr then value else m.cgram i }
    else m
  else { m with registers := insertReg m.registers addr value }

/-- readApuRegisters mirrors Memory::read_apu_registers. -/
def Memory.readApuRegisters (m : Memory) (addr : Nat) : Nat :=
  (m.registers addr).getD 0

/-- writeApuRegisters mirrors Memory::write_apu_registers. -/
def Memory.writeApuRegisters (m : Memory) (addr value : Nat) : Memory :=
  { m with registers := insertReg m.registers addr value }

/-- readDmaRegisters mirrors Memory::read_dma_registers. -/
def Memory.readDmaRegisters (m : Memory) (addr : Nat) : Nat :=
  (m.registers addr).getD 0

/-- writeDmaRegisters mirrors Memory::write_dma_registers. -/
def Memory.writeDmaRegisters (m : Memory) (addr value : Nat) : Memory :=
  { m with registers := insertReg m.registers addr value }

/-- read mirrors Memory::read.  bank is (addr shifted right 16) cast to u8,
offset is addr masked to 16 bits; the if-chain follows the Rust match arms
in source order (so the 0x4016..=0x4017 arm is shadowed by 0x4000..=0x41FF,
as in the source). -/
def Memory.read (m : Memory) (addr : Nat) : Nat :=
  let bank := (addr >>> 16) % 256
  let offset := addr % 65536
  if bank ≤ 0x3F then
    if offset ≤ 0x1FFF then m.wram offset
    else if 0x2100 ≤ offset ∧ offset ≤ 0x21FF then m.readPpuRegisters offset
    else if 0x4000 ≤ offset ∧ offset ≤ 0x41FF then m.readApuRegisters offset
    else if 0x4200 ≤ offset ∧ offset ≤ 0x44FF then m.readDmaRegisters offset
    else if 0x4016 ≤ offset ∧ offset ≤ 0x4017 then (m.registers offset).getD 0
    else if 0x6000 ≤ offset ∧ offset ≤ 0x7FFF then
      if 0 < m.sramSize then m.sramGet (offset - 0x6000) else 0
    else if 0x8000 ≤ offset then m.romGet ((bank <<< 15) ||| (offset - 0x8000))
    else 0
  else if bank ≤ 0x6F then
    if 0x8000 ≤ offset then m.romGet ((bank <<< 15) ||| (offset - 0x8000)) else 0
  else if bank = 0x7E then m.wram offset
  else if bank = 0x7F then m.wram (0x10000 + offset)
  else if 0x80 ≤ bank ∧ bank ≤ 0xBF then
    if offset ≤ 0x1FFF then m.wram offset
    else if 0x2100 ≤ offset ∧ offset ≤ 0x21FF then m.readPpuRegisters offset
    else if 0x4000 ≤ offset ∧ offset ≤ 0x41FF then m.readApuRegisters offset
    else if 0x4200 ≤ offset ∧ offset ≤ 0x44FF then m.readDmaRegisters offset
    else if 0x4016 ≤ offset ∧ offset ≤ 0x4017 then (m.registers offset).getD 0
    else if 0x8000 ≤ offset then m.romGet (((bank - 0x80) <<< 15) ||| (offset - 0x8000))
    else 0
  else if 0xC0 ≤ bank then
    match m.romType with
    | RomType.HiRom => m.romGet (((bank - 0xC0) <<< 16) ||| offset)
    | RomType.LoRom => 0
  else 0

/-- write mirrors Memory::write.  Note that unlike the bank 0x00..=0x3F arm,
the bank 0x80..=0xBF arm of the source has no 0x6000..=0x7FFF SRAM case, so
such writes fall to the unmapped arm and are discarded. -/
def Memory.write (m : Memory) (addr value : Nat) : Memory :=
  let bank := (addr >>> 16) % 256
  let offset := addr % 65536
  if bank ≤ 0x3F then
    if offset ≤ 0x1FFF then { m with wram := fun i => if i = offset then value else m.wram i }
    else if 0x2100 ≤ offset ∧ offset ≤ 0x21FF then m.writePpuRegisters offset value
    else if 0x4000 ≤ offset ∧ offset ≤ 0x41FF then m.writeApuRegisters offset value
    else if 0x4200 ≤ offset ∧ offset ≤ 0x44FF then m.writeDmaRegisters offset value
    else if 0x4016 ≤ offset ∧ offset ≤ 0x4017 then
      { m with registers := insertReg m.registers offset value }
    else if 0x6000 ≤ offset ∧ offset ≤ 0x7FFF then
      if 0 < m.sramSize then
        let sramAddr := offset - 0x6000
        if sramAddr < m.sramLen then
          { m with sramData := fun i => if i = sramAddr then value else m.sramData i }
        else m
      else m
    else m
  else if bank ≤ 0x6F then m
  else if bank = 0x7E then { m with wram := fun i => if i = offset then value else m.wram i }
  else if bank = 0x7F then
    { m with wram := fun i => if i = 0x10000 + offset then value else m.wram i }
  else if 0x80 ≤ bank ∧ bank ≤ 0xBF then
    if offset ≤ 0x1FFF then { m with wram := fun i => if i = offset then value else m.wram i }
    else if 0x2100 ≤ offset ∧ offset ≤ 0x21FF then m.writePpuRegisters offset value
    else if 0x4000 ≤ offset ∧ offset ≤ 0x41FF then m.writeApuRegisters offset value
    else if 0x4200 ≤ offset ∧ offset ≤ 0x44FF then m.writeDmaRegisters offset value
    else if 0x4016 ≤ offset ∧ offset ≤ 0x4017 then
      { m with registers := insertReg m.registers offset value }
    else m
  else m

/-- detectRomType mirrors Memory::detect_rom_type; all header indexations
are guarded by the length tests, so it is total. -/
def detectRomType (romLen : Nat) (romData : Nat → Nat) : RomType :=
  if romLen < 0x8000 then RomType.LoRom
  else
    let hiromHeader := 0xFFC0
    let loromHeader := 0x7FC0
    let hiromHit :=
      if hiromHeader + 0x20 < romLen then
        let hiChecksum := romData (hiromHeader + 0x1C) ||| (romData (hiromHeader + 0x1D) <<< 8)
        let hiComplement := romData (hiromHeader + 0x1E) ||| (romData (hiromHeader + 0x1F) <<< 8)
        (hiChecksum + hiComplement) % 65536 = 0xFFFF
      else False
    if hiromHit then RomType.HiRom
    else
      let loHit :=
        if loromHeader + 0x20 < romLen then
          let loChecksum := romData (loromHeader + 0x1C) ||| (romData (loromHeader + 0x1D) <<< 8)
          let loComplement := romData (loromHeader + 0x1E) ||| (romData (loromHeader + 0x1F) <<< 8)
          (loChecksum + loComplement) % 65536 = 0xFFFF
        else False
      if loHit then RomType.LoRom else RomType.LoRom

/-- detectSramSize mirrors Memory::detect_sram_size.  The source guards with
rom.len() < 0x7FD8 and then indexes rom[0x7FD8], which is in bounds only when
0x7FD8 < rom.len(); at length exactly 0x7FD8 the indexing aborts, modelled
here as none. -/
def detectSramSize (romLen : Nat) (romData : Nat → Nat) : Option Nat :=
  if romLen < 0x7FD8 then some 0
  else if 0x7FD8 < romLen then
    let sramByte := romData 0x7FD8
    some (if sramByte = 0x00 then 0
      else if sramByte = 0x01 then 0x800
      else if sramByte = 0x02 then 0x2000
      else if sramByte = 0x03 then 0x8000
      else if sramByte = 0x04 then 0x20000
      else 0x8000)
  else none

/-- new mirrors Memory::new: detect layout and SRAM size, then build the
zero-filled state; it is none exactly when detect_sram_size aborts. -/
def Memory.new (romLen : Nat) (romData : Nat → Nat) : Option Memory :=
  let romType := detectRomType romLen romData
  (detectSramSize romLen romData).map fun sramSize =>
    { wram := fun _ => 0
      romLen := romLen
      romData := romData
      vram := fun _ => 0
      oam := fun _ => 0
      cgram := fun _ => 0
      sramLen := sramSize
      sramData := fun _ => 0
      registers := fun _ => none
      romType := romType
      sramSize := sramSize }

/-- VideoMode mirrors ppu.rs. -/
inductive VideoMode where
  | Mode0 | Mode1 | Mode2 | Mode3 | Mode4 | Mode5 | Mode6 | Mode7
deriving DecidableEq, Repr

/-- Ppu mirrors the Ppu struct of ppu.rs.  The four-element arrays are
index functions; framebuffer is a Vec u32 of fixed length 256*224 and
lineBuffer an array of 256 bytes, both modelled as index functions. -/
structure Ppu where
  scanline : Nat
  cycle : Nat
  frameComplete : Bool
  vblank : Bool
  hblank : Bool
  videoMode : VideoMode
  brightness : Nat
  forcedBlank : Bool
  bgEnabled : Nat → Bool
  bgMode : Nat → Nat
  bgPriority : Nat → Nat
  bgSize : Nat → Bool
  spritesEnabled : Bool
  spriteSize : Nat
  bgHscroll : Nat → Nat
  bgVscroll : Nat → Nat
  vramAddr : Nat
  vramIncrement : Nat
  oamAddr : Nat
  cgramAddr : Nat
  framebuffer : Nat → Nat
  lineBuffer : Nat → Nat
  nmiEnabled : Bool
  nmiFlag : Bool

/-- new mirrors Ppu::new. -/
def Ppu.new : Ppu :=
  { scanline := 0
    cycle := 0
    frameComplete := false
    vblank := false
    hblank := false
    videoMode := VideoMode.Mode0
    brightness := 0
    forcedBlank := true
    bgEnabled := fun _ => false
    bgMode := fun _ => 0
    bgPriority := fun _ => 0
    bgSize := fun _ => false
    spritesEnabled := false
    spriteSize := 0
    bgHscroll := fun _ => 0
    bgVscroll := fun _ => 0
    vramAddr := 0
    vramIncrement := 1
    oamAddr := 0
    cgramAddr := 0
    framebuffer := fun _ => 0
    lineBuffer := fun _ => 0
    nmiEnabled := false
    nmiFlag := false }

/-- getBgTileIndex mirrors Ppu::get_bg_tile_index; vram.len() is 0x10000. -/
def Ppu.getBgTileIndex (m : Memory) (bgLayer tileX tileY : Nat) : Nat :=
  let tilemapAddr := 0x0000 + bgLayer * 0x800
  let tileAddr := tilemapAddr + (tileY * 32 + tileX) * 2
  if tileAddr < 0x10000 then
    let low := m.vram tileAddr
    let high := m.vram (tileAddr + 1)
    (high <<< 8) ||| low
  else 0

/-- getTileData mirrors Ppu::get_tile_data: unpack four bit-planes of a tile
row into eight 4-bit pixels. -/
def Ppu.getTileData (m : Memory) (tileIndex pixelRow : Nat) : Nat :=
  let tileAddr := tileIndex * 32 + pixelRow * 4
  if tileAddr + 3 < 0x10000 then
    let plane0 := m.vram tileAddr
    let plane1 := m.vram (tileAddr + 1)
    let plane2 := m.vram (tileAddr + 2)
    let plane3 := m.vram (tileAddr + 3)
    (List.range 8).foldl (fun pixelData bit =>
      let color := ((plane0 >>> bit) &&& 1) |||
                   (((plane1 >>> bit) &&& 1) <<< 1) |||
                   (((plane2 >>> bit) &&& 1) <<< 2) |||
                   (((plane3 >>> bit) &&& 1) <<< 3)
      pixelData ||| (color <<< (bit * 4))) 0
  else 0

/-- renderBgMode0 mirrors Ppu::render_bg_mode0, returning the updated line
buffer (the only field that method mutates). -/
def Ppu.renderBgMode0 (p : Ppu) (m : Memory) (bgLayer : Nat)
    (lineBuffer : Nat → Nat) : Nat → Nat :=
  let scrollX := p.bgHscroll bgLayer
  let scrollY := p.bgVscroll bgLayer
  let yPos := (p.scanline + scrollY) % 256
  let tileY := yPos / 8
  let pixelY := yPos % 8
  (List.range 32).foldl (fun lb tileX =>
    let xPos := (tileX * 8 + scrollX) % 256
    let tileIndex := Ppu.getBgTileIndex m bgLayer tileX tileY
    let tileData := Ppu.getTileData m tileIndex pixelY
    (List.range 8).foldl (fun lb pixelX =>
      let screenX := (xPos + pixelX) % 256
      if screenX < 256 then
        let colorIndex := (tileData >>> (pixelX * 2)) &&& 0x03
        if colorIndex ≠ 0 then fun i => if i = screenX then colorIndex else lb i
        else lb
      else lb) lb) lineBuffer

/-- getSpriteData mirrors Ppu::get_sprite_data. -/
def Ppu.getSpriteData (m : Memory) (tileIndex pixelRow : Nat) : Nat :=
  let tileAddr := 0x4000 + tileIndex * 32 + pixelRow * 4
  if tileAddr + 3 < 0x10000 then
    let plane0 := m.vram tileAddr
    let plane1 := m.vram (tileAddr + 1)
    let plane2 := m.vram (tileAddr + 2)
    let plane3 := m.vram (tileAddr + 3)
    (List.range 8).foldl (fun pixelData bit =>
      let color := ((plane0 >>> bit) &&& 1) |||
                   (((plane1 >>> bit) &&& 1) <<< 1) |||
                   (((plane2 >>> bit) &&& 1) <<< 2) |||
                   (((plane3 >>> bit) &&& 1) <<< 3)
      pixelData ||| (color <<< (bit * 4))) 0
  else 0

/-- renderSprites mirrors Ppu::render_sprites, returning the updated line
buffer; oam.len() is 0x220. -/
def Ppu.renderSprites (p : Ppu) (m : Memory) (lineBuffer : Nat → Nat) : Nat → Nat :=
  (List.range 128).foldl (fun lb sprite =>
    let oamAddr := sprite * 4
    if oamAddr + 3 < 0x220 then
      let x := m.oam oamAddr
      let y := m.oam (oamAddr + 1)
      let tile := m.oam (oamAddr + 2)
      if y ≤ p.scanline ∧ p.scanline < y + 8 then
        let spriteY := p.scanline - y
        let spriteData := Ppu.getSpriteData m tile spriteY
        (List.range 8).foldl (fun lb pixelX =>
          let screenX := x + pixelX
          if screenX < 256 then
            let colorIndex := (spriteData >>> (pixelX * 4)) &&& 0x0F
            if colorIndex ≠ 0 then fun i => if i = screenX then colorIndex + 16 else lb i
            else lb
          else lb) lb
      else lb
    else lb) lineBuffer

/-- getColorFromCgram mirrors Ppu::get_color_from_cgram; cgram.len() is 0x200. -/
def Ppu.getColorFromCgram (m : Memory) (colorIndex : Nat) : Nat :=
  if colorIndex = 0 then 0
  else
    let cgramAddr := (colorIndex * 2) % 0x200
    if cgramAddr + 1 < 0x200 then
      let low := m.cgram cgramAddr
      let high := m.cgram (cgramAddr + 1)
      let color15 := (high <<< 8) ||| low
      let r := (color15 &&& 0x1F) <<< 3
      let g := ((color15 >>> 5) &&& 0x1F) <<< 3
      let b := ((color15 >>> 10) &&& 0x1F) <<< 3
      (r <<< 16) ||| (g <<< 8) ||| b
    else 0

/-- renderScanline mirrors Ppu::render_scanline: clear the line buffer,
compose mode-0 backgrounds and sprites, then write the line through CGRAM
into the framebuffer row; only lineBuffer and framebuffer change. -/
def Ppu.renderScanline (p : Ppu) (m : Memory) : Ppu :=
  let lb0 : Nat → Nat := fun _ => 0
  let lb1 :=
    match p.videoMode with
    | VideoMode.Mode0 =>
        (List.range 4).foldl (fun lb bg =>
          if p.bgEnabled bg then Ppu.renderBgMode0 p m bg lb else lb) lb0
    | _ => lb0
  let lb2 := if p.spritesEnabled then Ppu.renderSprites p m lb1 else lb1
  let fb :=
    (List.range 256).foldl (fun fb x =>
      let colorIndex := lb2 x
      let rgbColor := Ppu.getColorFromCgram m colorIndex
      let fbIndex := p.scanline * 256 + x
      if fbIndex < 256 * 224 then fun i => if i = fbIndex then rgbColor else fb i
      else fb) p.framebuffer
  { p with lineBuffer := lb2, framebuffer := fb }

/-- step mirrors Ppu::step: advance the dot counter, wrap at 341 into a
scanline advance with the source's scanline match arms, and finally update
hblank from the current dot; returns the nmi_triggered flag. -/
def Ppu.step (p : Ppu) (m : Memory) : Ppu × Bool :=
  if 341 ≤ p.cycle + 1 then
    let s := p.scanline + 1
    let p1 := { p with cycle := 0, scanline := s }
    let r :=
      if s ≤ 223 then
        let pr := if ¬ p1.forcedBlank then Ppu.renderScanline p1 m else p1
        ({ pr with vblank := false }, false)
      else if s = 224 then
        let pa := { p1 with vblank := true, frameComplete := true }
        if p1.nmiEnabled then ({ pa with nmiFlag := true }, true) else (pa, false)
      else if s ≤ 261 then ({ p1 with vblank := true }, false)
      else if s = 262 then
        ({ p1 with scanline := 0, frameComplete := false, nmiFlag := false }, false)
      else (p1, false)
    ({ r.1 with hblank := decide (256 ≤ r.1.cycle) }, r.2)
  else
    let p1 := { p with cycle := p.cycle + 1 }
    ({ p1 with hblank := decide (256 ≤ p1.cycle) }, false)

/-- runCount iterates Ppu::step n times on a fixed memory (step never
writes memory) and counts the ticks whose scanline advance entered line
224, i.e. the ticks that raise the frame-complete flag. -/
def Ppu.runCount : Nat → Ppu → Memory → Ppu × Nat
  | 0, p, _ => (p, 0)
  | n + 1, p, m =>
    let raised := if 341 ≤ p.cycle + 1 ∧ p.scanline + 1 = 224 then 1 else 0
    let rest := Ppu.runCount n (Ppu.step p m).1 m
    (rest.1, raised + rest.2)

/-- gAdvance is the scanline successor function realised by one full
341-dot scanline of Ppu::step: increment, wrapping 262 to 0. -/
def gAdvance (s : Nat) : Nat :=
  if s + 1 = 262 then 0 else s + 1

/-- gIter iterates gAdvance. -/
def gIter : Nat → Nat → Nat
  | 0, s => s
  | k + 1, s => gIter k (gAdvance s)

/-- gCount counts how many of the next k scanline advances from line s
enter line 224. -/
def gCount : Nat → Nat → Nat
  | 0, _ => 0
  | k + 1, s => (if s + 1 = 224 then 1 else 0) + gCount k (gAdvance s)

/-- Operation mirrors the Operation enum of opcodes.rs. -/
inductive Operation where
  | LoadA | LoadX | LoadY
  | StoreA | StoreX | StoreY | StoreZero
  | Add | Sub | Inc | Dec
  | And | Or | Xor
  | Xce | Rep | Sep | Tcd
  | DecX | Rtl
  | Compare | CompareX | CompareY
  | ShiftLeft | ShiftRight
  | TransferAX | TransferAY | TransferXA | TransferXY | TransferYA | TransferYX
  | TransferSX | TransferXS | TransferSC | TransferCS
  | PushA | PullA | PushP | PullP | PushX | PullX | PushY | PullY
  | JumpSubroutine | ReturnFromSubroutine | ReturnFromInterrupt | SoftwareInterrupt
  | SetFlag (flag : Nat)
  | ClearFlag (flag : Nat)
  | Jump | JumpIndirect
  | Branch (flag : Nat) (condition : Bool)
  | Nop

/-- AddressingMode mirrors the AddressingMode enum of opcodes.rs. -/
inductive AddressingMode where
  | Implied
  | Immediate
  | DirectPage
  | DirectPageIndexedX
  | DirectPageIndexedY
  | Absolute
  | AbsoluteIndexedX
  | AbsoluteIndexedY
  | AbsoluteLong
  | AbsoluteLongIndexedX
  | Indirect
  | IndirectIndexed
  | IndexedIndirect

/-- OpcodeInfo mirrors the OpcodeInfo struct of opcodes.rs. -/
structure OpcodeInfo where
  operation : Operation
  mode : AddressingMode
  cycles : Nat

/-- FLAG constants from opcodes.rs. -/
def FLAG_CARRY : Nat := 0x01

/-- FLAG_ZERO from opcodes.rs. -/
def FLAG_ZERO : Nat := 0x02

/-- FLAG_IRQ from opcodes.rs. -/
def FLAG_IRQ : Nat := 0x04

/-- FLAG_DECIMAL from opcodes.rs. -/
def FLAG_DECIMAL : Nat := 0x08

/-- FLAG_OVERFLOW from opcodes.rs. -/
def FLAG_OVERFLOW : Nat := 0x40

/-- FLAG_NEGATIVE from opcodes.rs. -/
def FLAG_NEGATIVE : Nat := 0x80

/-- getOpcodeInfo mirrors opcodes.rs get_opcode_info over the table built by
create_opcode_table (each insert becomes one match arm; the table has no
duplicate keys). -/
def getOpcodeInfo (opcode : Nat) : Option OpcodeInfo :=
  match opcode with
  | 0x18 => some ⟨Operation.ClearFlag FLAG_CARRY, AddressingMode.Implied, 2⟩
  | 0x38 => some ⟨Operation.SetFlag FLAG_CARRY, AddressingMode.Implied, 2⟩
  | 0x58 => some ⟨Operation.ClearFlag FLAG_IRQ, AddressingMode.Implied, 2⟩
  | 0x78 => some ⟨Operation.SetFlag FLAG_IRQ, AddressingMode.Implied, 2⟩
  | 0xB8 => some ⟨Operation.ClearFlag FLAG_OVERFLOW, AddressingMode.Implied, 2⟩
  | 0xD8 => some ⟨Operation.ClearFlag FLAG_DECIMAL, AddressingMode.Implied, 2⟩
  | 0xF8 => some ⟨Operation.SetFlag FLAG_DECIMAL, AddressingMode.Implied, 2⟩
  | 0xAA => some ⟨Operation.TransferAX, AddressingMode.Implied, 2⟩
  | 0xA8 => some ⟨Operation.TransferAY, AddressingMode.Implied, 2⟩
  | 0x8A => some ⟨Operation.TransferXA, AddressingMode.Implied, 2⟩
  | 0x98 => some ⟨Operation.TransferYA, AddressingMode.Implied, 2⟩
  | 0x9B => some ⟨Operation.TransferXY, AddressingMode.Implied, 2⟩
  | 0xBB => some ⟨Operation.TransferYX, AddressingMode.Implied, 2⟩
  | 0xBA => some ⟨Operation.TransferSX, AddressingMode.Implied, 2⟩
  | 0x9A => some ⟨Operation.TransferXS, AddressingMode.Implied, 2⟩
  | 0x3B => some ⟨Operation.TransferSC, AddressingMode.Implied, 2⟩
  | 0x1B => some ⟨Operation.TransferCS, AddressingMode.Implied, 2⟩
  | 0xA9 => some ⟨Operation.LoadA, AddressingMode.Immediate, 2⟩
  | 0xA5 => some ⟨Operation.LoadA, AddressingMode.DirectPage, 3⟩
  | 0xB5 => some ⟨Operation.LoadA, AddressingMode.DirectPageIndexedX, 4⟩
  | 0xAD => some ⟨Operation.LoadA, AddressingMode.Absolute, 4⟩
  | 0xBD => some ⟨Operation.LoadA, AddressingMode.AbsoluteIndexedX, 4⟩
  | 0xB9 => some ⟨Operation.LoadA, AddressingMode.AbsoluteIndexedY, 4⟩
  | 0xB1 => some ⟨Operation.LoadA, AddressingMode.IndirectIndexed, 5⟩
  | 0xA1 => some ⟨Operation.LoadA, AddressingMode.IndexedIndirect, 6⟩
  | 0xA2 => some ⟨Operation.LoadX, AddressingMode.Immediate, 2⟩
  | 0xA6 => some ⟨Operation.LoadX, AddressingMode.DirectPage, 3⟩
  | 0xB6 => some ⟨Operation.LoadX, AddressingMode.DirectPageIndexedY, 4⟩
  | 0xAE => some ⟨Operation.LoadX, AddressingMode.Absolute, 4⟩
  | 0xBE => some ⟨Operation.LoadX, AddressingMode.AbsoluteIndexedY, 4⟩
  | 0xA0 => some ⟨Operation.LoadY, AddressingMode.Immediate, 2⟩
  | 0xA4 => some ⟨Operation.LoadY, AddressingMode.DirectPage, 3⟩
  | 0xB4 => some ⟨Operation.LoadY, AddressingMode.DirectPageIndexedX, 4⟩
  | 0xAC => some ⟨Operation.LoadY, AddressingMode.Absolute, 4⟩
  | 0xBC => some ⟨Operation.LoadY, AddressingMode.AbsoluteIndexedX, 4⟩
  | 0x85 => some ⟨Operation.StoreA, AddressingMode.DirectPage, 3⟩
  | 0x95 => some ⟨Operation.StoreA, AddressingMode.DirectPageIndexedX, 4⟩
  | 0x8D => some ⟨Operation.StoreA, AddressingMode.Absolute, 4⟩
  | 0x8F => some ⟨Operation.StoreA, AddressingMode.AbsoluteLong, 5⟩
  | 0x9D => some ⟨Operation.StoreA, AddressingMode.AbsoluteIndexedX, 5⟩
  | 0x9F => some ⟨Operation.StoreA, AddressingMode.AbsoluteLongIndexedX, 5⟩
  | 0x99 => some ⟨Operation.StoreA, AddressingMode.AbsoluteIndexedY, 5⟩
  | 0x91 => some ⟨Operation.StoreA, AddressingMode.IndirectIndexed, 6⟩
  | 0x81 => some ⟨Operation.StoreA, AddressingMode.IndexedIndirect, 6⟩
  | 0x86 => some ⟨Operation.StoreX, AddressingMode.DirectPage, 3⟩
  | 0x96 => some ⟨Operation.StoreX, AddressingMode.DirectPageIndexedY, 4⟩
  | 0x8E => some ⟨Operation.StoreX, AddressingMode.Absolute, 4⟩
  | 0x84 => some ⟨Operation.StoreY, AddressingMode.DirectPage, 3⟩
  | 0x94 => some ⟨Operation.StoreY, AddressingMode.DirectPageIndexedX, 4⟩
  | 0x8C => some ⟨Operation.StoreY, AddressingMode.Absolute, 4⟩
  | 0x64 => some ⟨Operation.StoreZero, AddressingMode.DirectPage, 3⟩
  | 0x74 => some ⟨Operation.StoreZero, AddressingMode.DirectPageIndexedX, 4⟩
  | 0x9C => some ⟨Operation.StoreZero, AddressingMode.Absolute, 4⟩
  | 0x9E => some ⟨Operation.StoreZero, AddressingMode.AbsoluteIndexedX, 5⟩
  | 0xFB => some ⟨Operation.Xce, AddressingMode.Implied, 2⟩
  | 0xC2 => some ⟨Operation.Rep, AddressingMode.Immediate, 3⟩
  | 0xE2 => some ⟨Operation.Sep, AddressingMode.Immediate, 3⟩
  | 0x5B => some ⟨Operation.Tcd, AddressingMode.Implied, 2⟩
  | 0x69 => some ⟨Operation.Add, AddressingMode.Immediate, 2⟩
  | 0x65 => some ⟨Operation.Add, AddressingMode.DirectPage, 3⟩
  | 0x75 => some ⟨Operation.Add, AddressingMode.DirectPageIndexedX, 4⟩
  | 0x6D => some ⟨Operation.Add, AddressingMode.Absolute, 4⟩
  | 0x7D => some ⟨Operation.Add, AddressingMode.AbsoluteIndexedX, 4⟩
  | 0x79 => some ⟨Operation.Add, AddressingMode.AbsoluteIndexedY, 4⟩
  | 0x71 => some ⟨Operation.Add, AddressingMode.IndirectIndexed, 5⟩
  | 0x61 => some ⟨Operation.Add, AddressingMode.IndexedIndirect, 6⟩
  | 0xE9 => some ⟨Operation.Sub, AddressingMode.Immediate, 2⟩
  | 0xE5 => some ⟨Operation.Sub, AddressingMode.DirectPage, 3⟩
  | 0xF5 => some ⟨Operation.Sub, AddressingMode.DirectPageIndexedX, 4⟩
  | 0xED => some ⟨Operation.Sub, AddressingMode.Absolute, 4⟩
  | 0xFD => some ⟨Operation.Sub, AddressingMode.AbsoluteIndexedX, 4⟩
  | 0xF9 => some ⟨Operation.Sub, AddressingMode.AbsoluteIndexedY, 4⟩
  | 0xF1 => some ⟨Operation.Sub, AddressingMode.IndirectIndexed, 5⟩
  | 0xE1 => some ⟨Operation.Sub, AddressingMode.IndexedIndirect, 6⟩
  | 0x1A => some ⟨Operation.Inc, AddressingMode.Implied, 2⟩
  | 0xE6 => some ⟨Operation.Inc, AddressingMode.DirectPage, 5⟩
  | 0xEE => some ⟨Operation.Inc, AddressingMode.Absolute, 6⟩
  | 0x3A => some ⟨Operation.Dec, AddressingMode.Implied, 2⟩
  | 0xC6 => some ⟨Operation.Dec, AddressingMode.DirectPage, 5⟩
  | 0xCE => some ⟨Operation.Dec, AddressingMode.Absolute, 6⟩
  | 0x29 => some ⟨Operation.And, AddressingMode.Immediate, 2⟩
  | 0x25 => some ⟨Operation.And, AddressingMode.DirectPage, 3⟩
  | 0x35 => some ⟨Operation.And, AddressingMode.DirectPageIndexedX, 4⟩
  | 0x2D => some ⟨Operation.And, AddressingMode.Absolute, 4⟩
  | 0x3D => some ⟨Operation.And, AddressingMode.AbsoluteIndexedX, 4⟩
  | 0x39 => some ⟨Operation.And, AddressingMode.AbsoluteIndexedY, 4⟩
  | 0x31 => some ⟨Operation.And, AddressingMode.IndirectIndexed, 5⟩
  | 0x21 => some ⟨Operation.And, AddressingMode.IndexedIndirect, 6⟩
  | 0x09 => some ⟨Operation.Or, AddressingMode.Immediate, 2⟩
  | 0x05 => some ⟨Operation.Or, AddressingMode.DirectPage, 3⟩
  | 0x15 => some ⟨Operation.Or, AddressingMode.DirectPageIndexedX, 4⟩
  | 0x0D => some ⟨Operation.Or, AddressingMode.Absolute, 4⟩
  | 0x1D => some ⟨Operation.Or, AddressingMode.AbsoluteIndexedX, 4⟩
  | 0x19 => some ⟨Operation.Or, AddressingMode.AbsoluteIndexedY, 4⟩
  | 0x11 => some ⟨Operation.Or, AddressingMode.IndirectIndexed, 5⟩
  | 0x01 => some ⟨Operation.Or, AddressingMode.IndexedIndirect, 6⟩
  | 0x49 => some ⟨Operation.Xor, AddressingMode.Immediate, 2⟩
  | 0x45 => some ⟨Operation.Xor, AddressingMode.DirectPage, 3⟩
  | 0x55 => some ⟨Operation.Xor, AddressingMode.DirectPageIndexedX, 4⟩
  | 0x4D => some ⟨Operation.Xor, AddressingMode.Absolute, 4⟩
  | 0x5D => some ⟨Operation.Xor, AddressingMode.AbsoluteIndexedX, 4⟩
  | 0x59 => some ⟨Operation.Xor, AddressingMode.AbsoluteIndexedY, 4⟩
  | 0x51 => some ⟨Operation.Xor, AddressingMode.IndirectIndexed, 5⟩
  | 0x41 => some ⟨Operation.Xor, AddressingMode.IndexedIndirect, 6⟩
  | 0xC9 => some ⟨Operation.Compare, AddressingMode.Immediate, 2⟩
  | 0xC5 => some ⟨Operation.Compare, AddressingMode.DirectPage, 3⟩
  | 0xD5 => some ⟨Operation.Compare, AddressingMode.DirectPageIndexedX, 4⟩
  | 0xCD => some ⟨Operation.Compare, AddressingMode.Absolute, 4⟩
  | 0xDD => some ⟨Operation.Compare, AddressingMode.AbsoluteIndexedX, 4⟩
  | 0xD9 => some ⟨Operation.Compare, AddressingMode.AbsoluteIndexedY, 4⟩
  | 0xD1 => some ⟨Operation.Compare, AddressingMode.IndirectIndexed, 5⟩
  | 0xC1 => some ⟨Operation.Compare, AddressingMode.IndexedIndirect, 6⟩
  | 0xE0 => some ⟨Operation.CompareX, AddressingMode.Immediate, 2⟩
  | 0xE4 => some ⟨Operation.CompareX, AddressingMode.DirectPage, 3⟩
  | 0xEC => some ⟨Operation.CompareX, AddressingMode.Absolute, 4⟩
  | 0xC0 => some ⟨Operation.CompareY, AddressingMode.Immediate, 2⟩
  | 0xC4 => some ⟨Operation.CompareY, AddressingMode.DirectPage, 3⟩
  | 0xCC => some ⟨Operation.CompareY, AddressingMode.Absolute, 4⟩
  | 0xCA => some ⟨Operation.DecX, AddressingMode.Implied, 2⟩
  | 0x6B => some ⟨Operation.Rtl, AddressingMode.Implied, 6⟩
  | 0x48 => some ⟨Operation.PushA, AddressingMode.Implied, 3⟩
  | 0x68 => some ⟨Operation.PullA, AddressingMode.Implied, 4⟩
  | 0x08 => some ⟨Operation.PushP, AddressingMode.Implied, 3⟩
  | 0x28 => some ⟨Operation.PullP, AddressingMode.Implied, 4⟩
  | 0xDA => some ⟨Operation.PushX, AddressingMode.Implied, 3⟩
  | 0xFA => some ⟨Operation.PullX, AddressingMode.Implied, 4⟩
  | 0x5A => some ⟨Operation.PushY, AddressingMode.Implied, 3⟩
  | 0x7A => some ⟨Operation.PullY, AddressingMode.Implied, 4⟩
  | 0x0A => some ⟨Operation.ShiftLeft, AddressingMode.Implied, 2⟩
  | 0x06 => some ⟨Operation.ShiftLeft, AddressingMode.DirectPage, 5⟩
  | 0x0E => some ⟨Operation.ShiftLeft, AddressingMode.Absolute, 6⟩
  | 0x4A => some ⟨Operation.ShiftRight, AddressingMode.Implied, 2⟩
  | 0x46 => some ⟨Operation.ShiftRight, AddressingMode.DirectPage, 5⟩
  | 0x4E => some ⟨Operation.ShiftRight, AddressingMode.Absolute, 6⟩
  | 0x20 => some ⟨Operation.JumpSubroutine, AddressingMode.Absolute, 6⟩
  | 0x60 => some ⟨Operation.ReturnFromSubroutine, AddressingMode.Implied, 6⟩
  | 0x40 => some ⟨Operation.ReturnFromInterrupt, AddressingMode.Implied, 6⟩
  | 0x00 => some ⟨Operation.SoftwareInterrupt, AddressingMode.Implied, 7⟩
  | 0x4C => some ⟨Operation.Jump, AddressingMode.Absolute, 3⟩
  | 0x6C => some ⟨Operation.JumpIndirect, AddressingMode.Indirect, 5⟩
  | 0x10 => some ⟨Operation.Branch FLAG_NEGATIVE false, AddressingMode.Implied, 2⟩
  | 0x30 => some ⟨Operation.Branch FLAG_NEGATIVE true, AddressingMode.Implied, 2⟩
  | 0x50 => some ⟨Operation.Branch FLAG_OVERFLOW false, AddressingMode.Implied, 2⟩
  | 0x70 => some ⟨Operation.Branch FLAG_OVERFLOW true, AddressingMode.Implied, 2⟩
  | 0x90 => some ⟨Operation.Branch FLAG_CARRY false, AddressingMode.Implied, 2⟩
  | 0xB0 => some ⟨Operation.Branch FLAG_CARRY true, AddressingMode.Implied, 2⟩
  | 0xD0 => some ⟨Operation.Branch FLAG_ZERO false, AddressingMode.Implied, 2⟩
  | 0xF0 => some ⟨Operation.Branch FLAG_ZERO true, AddressingMode.Implied, 2⟩
  | 0xEA => some ⟨Operation.Nop, AddressingMode.Implied, 2⟩
  | _ => none

/-- toI8 reinterprets a byte as a Rust i8 value. -/
def toI8 (b : Nat) : Int :=
  if b < 128 then (b : Int) else (b : Int) - 256

/-- Cpu mirrors the Cpu struct of cpu.rs (a, x, y, sp, dp are u16; pc is
u32; db, pb, p are u8; cycles is u64). -/
structure Cpu where
  a : Nat
  x : Nat
  y : Nat
  sp : Nat
  pc : Nat
  dp : Nat
  db : Nat
  pb : Nat
  p : Nat
  mFlag : Bool
  xFlag : Bool
  eFlag : Bool
  cycles : Nat

/-- new mirrors Cpu::new. -/
def Cpu.new : Cpu :=
  { a := 0
    x := 0
    y := 0
    sp := 0x01FF
    pc := 0x008000
    dp := 0
    db := 0
    pb := 0
    p := 0x34
    mFlag := true
    xFlag := true
    eFlag := true
    cycles := 0 }

/-- reset mirrors Cpu::reset. -/
def Cpu.reset (c : Cpu) : Cpu :=
  { c with
    a := 0
    x := 0
    y := 0
    pc := 0x008000
    sp := 0x01FF
    dp := 0
    db := 0
    pb := 0
    p := 0x34
    mFlag := true
    xFlag := true
    eFlag := true
    cycles := 0 }

/-- getFlag mirrors Cpu::get_flag. -/
def Cpu.getFlag (c : Cpu) (flag : Nat) : Bool :=
  (c.p &&& flag) != 0

/-- setFlag mirrors Cpu::set_flag. -/
def Cpu.setFlag (c : Cpu) (flag : Nat) : Cpu :=
  { c with p := c.p ||| flag }

/-- clearFlag mirrors Cpu::clear_flag; the u8 complement of flag is
0xFF xor flag. -/
def Cpu.clearFlag (c : Cpu) (flag : Nat) : Cpu :=
  { c with p := c.p &&& (0xFF ^^^ flag) }

/-- setCarryFlag mirrors Cpu::set_carry_flag. -/
def Cpu.setCarryFlag (c : Cpu) (set : Bool) : Cpu :=
  if set then { c with p := c.p ||| FLAG_CARRY }
  else { c with p := c.p &&& (0xFF ^^^ FLAG_CARRY) }

/-- setOverflowFlagAdd mirrors Cpu::set_overflow_flag_add (u8 arguments). -/
def Cpu.setOverflowFlagAdd (c : Cpu) (a b result : Nat) : Cpu :=
  if ((a ^^^ result) &&& (b ^^^ result) &&& 0x80) ≠ 0 then
    { c with p := c.p ||| FLAG_OVERFLOW }
  else { c with p := c.p &&& (0xFF ^^^ FLAG_OVERFLOW) }

/-- setOverflowFlagAdd16 mirrors Cpu::set_overflow_flag_add16. -/
def Cpu.setOverflowFlagAdd16 (c : Cpu) (a b result : Nat) : Cpu :=
  if ((a ^^^ result) &&& (b ^^^ result) &&& 0x8000) ≠ 0 then
    { c with p := c.p ||| FLAG_OVERFLOW }
  else { c with p := c.p &&& (0xFF ^^^ FLAG_OVERFLOW) }

/-- setOverflowFlagSub mirrors Cpu::set_overflow_flag_sub (u8 arguments). -/
def Cpu.setOverflowFlagSub (c : Cpu) (a b result : Nat) : Cpu :=
  if ((a ^^^ b) &&& (a ^^^ result) &&& 0x80) ≠ 0 then
    { c with p := c.p ||| FLAG_OVERFLOW }
  else { c with p := c.p &&& (0xFF ^^^ FLAG_OVERFLOW) }

/-- setOverflowFlagSub16 mirrors Cpu::set_overflow_flag_sub16. -/
def Cpu.setOverflowFlagSub16 (c : Cpu) (a b result : Nat) : Cpu :=
  if ((a ^^^ b) &&& (a ^^^ result) &&& 0x8000) ≠ 0 then
    { c with p := c.p ||| FLAG_OVERFLOW }
  else { c with p := c.p &&& (0xFF ^^^ FLAG_OVERFLOW) }

/-- updateNzFlags mirrors Cpu::update_nz_flags: clear Z and N, set Z when
the value is zero, and set N from a test bit chosen as 0x80 when either
width flag selects 8-bit mode and 0x8000 only when both select 16-bit. -/
def Cpu.updateNzFlags (c : Cpu) (value : Nat) : Cpu :=
  let p1 := c.p &&& (0xFF ^^^ (FLAG_ZERO ||| FLAG_NEGATIVE))
  let p2 := if value = 0 then p1 ||| FLAG_ZERO else p1
  let testBit := if c.mFlag ∨ c.xFlag then 0x80 else 0x8000
  let p3 := if value &&& testBit ≠ 0 then p2 ||| FLAG_NEGATIVE else p2
  { c with p := p3 }

/-- updateNzFlagsA mirrors Cpu::update_nz_flags_a. -/
def Cpu.updateNzFlagsA (c : Cpu) : Cpu :=
  c.updateNzFlags (if c.mFlag then c.a &&& 0xFF else c.a)

/-- updateNzFlagsX mirrors Cpu::update_nz_flags_x. -/
def Cpu.updateNzFlagsX (c : Cpu) : Cpu :=
  c.updateNzFlags (if c.xFlag then c.x &&& 0xFF else c.x)

/-- updateNzFlagsY mirrors Cpu::update_nz_flags_y. -/
def Cpu.updateNzFlagsY (c : Cpu) : Cpu :=
  c.updateNzFlags (if c.xFlag then c.y &&& 0xFF else c.y)

/-- updateModeFlags mirrors Cpu::update_mode_flags. -/
def Cpu.updateModeFlags (c : Cpu) : Cpu :=
  if ¬ c.eFlag then
    { c with mFlag := (c.p &&& 0x20) != 0, xFlag := (c.p &&& 0x10) != 0 }
  else c

/-- pushByte mirrors Cpu::push_byte: write at sp, then decrement with the
emulation-mode page-1 wrap (or u16 wrapping subtraction in native mode). -/
def Cpu.pushByte (c : Cpu) (m : Memory) (value : Nat) : Cpu × Memory :=
  let m := m.write c.sp value
  if c.eFlag then
    if c.sp &&& 0xFF = 0 then ({ c with sp := 0x01FF }, m)
    else ({ c with sp := c.sp - 1 }, m)
  else ({ c with sp := (c.sp + 65535) % 65536 }, m)

/-- pullByte mirrors Cpu::pull_byte: increment with the emulation-mode
page-1 wrap (or u16 wrapping addition), then read at sp. -/
def Cpu.pullByte (c : Cpu) (m : Memory) : Nat × Cpu :=
  let c :=
    if c.eFlag then
      if c.sp &&& 0xFF = 0xFF then { c with sp := 0x0100 }
      else { c with sp := c.sp + 1 }
    else { c with sp := (c.sp + 1) % 65536 }
  (m.read c.sp, c)

/-- adc mirrors Cpu::adc. -/
def Cpu.adc (c : Cpu) (operand : Nat) : Cpu :=
  let accValue := if c.mFlag then c.a &&& 0xFF else c.a
  let carry := if c.getFlag FLAG_CARRY then 1 else 0
  let c :=
    if c.mFlag then
      let result := accValue + operand + carry
      let c := c.setCarryFlag (decide (0xFF < result))
      let c := c.setOverflowFlagAdd (accValue % 256) (operand % 256) (result % 256)
      { c with a := (c.a &&& 0xFF00) ||| (result &&& 0xFF) }
    else
      let result := accValue + operand + carry
      let c := c.setCarryFlag (decide (0xFFFF < result))
      let c := c.setOverflowFlagAdd16 accValue operand (result % 65536)
      { c with a := result % 65536 }
  c.updateNzFlagsA

/-- sbc mirrors Cpu::sbc; the signed intermediate result is an Int and the
"as u16"/"as u8" casts are the corresponding nonnegative remainders. -/
def Cpu.sbc (c : Cpu) (operand : Nat) : Cpu :=
  let accValue := if c.mFlag then c.a &&& 0xFF else c.a
  let carry : Int := if c.getFlag FLAG_CARRY then 0 else 1
  let c :=
    if c.mFlag then
      let result : Int := (accValue : Int) - (operand : Int) - carry
      let c := c.setCarryFlag (decide (0 ≤ result))
      let c := c.setOverflowFlagSub (accValue % 256) (operand % 256) ((result % 256).toNat)
      { c with a := (c.a &&& 0xFF00) ||| ((result % 65536).toNat &&& 0xFF) }
    else
      let result : Int := (accValue : Int) - (operand : Int) - carry
      let c := c.setCarryFlag (decide (0 ≤ result))
      let c := c.setOverflowFlagSub16 accValue operand ((result % 65536).toNat)
      { c with a := (result % 65536).toNat }
  c.updateNzFlagsA

/-- compare mirrors Cpu::compare; the i16 difference reinterpreted as u16
is the nonnegative remainder of the Int difference. -/
def Cpu.compare (c : Cpu) (registerValue operand : Nat) : Cpu :=
  let result := (((registerValue : Int) - (operand : Int)) % 65536).toNat
  let c := c.setCarryFlag (decide (operand ≤ registerValue))
  let c :=
    if registerValue = operand then { c with p := c.p ||| FLAG_ZERO }
    else { c with p := c.p &&& (0xFF ^^^ FLAG_ZERO) }
  let testBit := if c.mFlag ∨ c.xFlag then 0x80 else 0x8000
  if result &&& testBit ≠ 0 then { c with p := c.p ||| FLAG_NEGATIVE }
  else { c with p := c.p &&& (0xFF ^^^ FLAG_NEGATIVE) }

/-- readAddress mirrors Cpu::read_address. -/
def Cpu.readAddress (c : Cpu) (m : Memory) (mode : AddressingMode) : Nat × Cpu :=
  match mode with
  | AddressingMode.Absolute =>
    let addrLow := m.read c.pc
    let addrHigh := m.read (c.pc + 1)
    ((addrHigh <<< 8) ||| addrLow, { c with pc := c.pc + 2 })
  | _ => (0, c)

/-- readOperand mirrors Cpu::read_operand; the memory is only read. -/
def Cpu.readOperand (c : Cpu) (m : Memory) (mode : AddressingMode)
    (useXFlag : Bool) : Nat × Cpu :=
  let is8bit := if useXFlag then c.xFlag else c.mFlag
  match mode with
  | AddressingMode.Immediate =>
    if is8bit then (m.read c.pc, { c with pc := c.pc + 1 })
    else
      let low := m.read c.pc
      let high := m.read (c.pc + 1)
      ((high <<< 8) ||| low, { c with pc := c.pc + 2 })
  | AddressingMode.DirectPage =>
    let addr := c.dp + m.read c.pc
    let c := { c with pc := c.pc + 1 }
    if is8bit then (m.read addr, c)
    else ((m.read (addr + 1) <<< 8) ||| m.read addr, c)
  | AddressingMode.DirectPageIndexedX =>
    let base := m.read c.pc
    let c := { c with pc := c.pc + 1 }
    let addr := (c.dp + base + (c.x &&& 0xFF)) &&& 0xFFFF
    if is8bit then (m.read addr, c)
    else ((m.read (addr + 1) <<< 8) ||| m.read addr, c)
  | AddressingMode.DirectPageIndexedY =>
    let base := m.read c.pc
    let c := { c with pc := c.pc + 1 }
    let addr := (c.dp + base + (c.y &&& 0xFF)) &&& 0xFFFF
    if is8bit then (m.read addr, c)
    else ((m.read (addr + 1) <<< 8) ||| m.read addr, c)
  | AddressingMode.Absolute =>
    let ac := c.readAddress m AddressingMode.Absolute
    let addr := ac.1
    let c := ac.2
    if is8bit then (m.read addr, c)
    else ((m.read (addr + 1) <<< 8) ||| m.read addr, c)
  | AddressingMode.AbsoluteIndexedX =>
    let ac := c.readAddress m AddressingMode.Absolute
    let addr := ac.1 + (ac.2.x &&& 0xFFFF)
    let c := ac.2
    if is8bit then (m.read addr, c)
    else ((m.read (addr + 1) <<< 8) ||| m.read addr, c)
  | AddressingMode.AbsoluteIndexedY =>
    let ac := c.readAddress m AddressingMode.Absolute
    let addr := ac.1 + (ac.2.y &&& 0xFFFF)
    let c := ac.2
    if is8bit then (m.read addr, c)
    else ((m.read (addr + 1) <<< 8) ||| m.read addr, c)
  | AddressingMode.IndirectIndexed =>
    let dpAddr := (c.dp + m.read c.pc) &&& 0xFFFF
    let c := { c with pc := c.pc + 1 }
    let ptrLow := m.read dpAddr
    let ptrHigh := m.read ((dpAddr + 1) &&& 0xFFFF)
    let addr := ((ptrHigh <<< 8) ||| ptrLow) + (c.y &&& 0xFFFF)
    if is8bit then (m.read addr, c)
    else ((m.read (addr + 1) <<< 8) ||| m.read addr, c)
  | AddressingMode.IndexedIndirect =>
    let base := m.read c.pc
    let c := { c with pc := c.pc + 1 }
    let dpAddr := (c.dp + base + (c.x &&& 0xFF)) &&& 0xFFFF
    let ptrLow := m.read dpAddr
    let ptrHigh := m.read ((dpAddr + 1) &&& 0xFFFF)
    let addr := (ptrHigh <<< 8) ||| ptrLow
    if is8bit then (m.read addr, c)
    else ((m.read (addr + 1) <<< 8) ||| m.read addr, c)
  | _ => (0, c)

/-- writeOperand mirrors Cpu::write_operand. -/
def Cpu.writeOperand (c : Cpu) (m : Memory) (mode : AddressingMode)
    (value : Nat) (useXFlag : Bool) : Cpu × Memory :=
  let is8bit := if useXFlag then c.xFlag else c.mFlag
  match mode with
  | AddressingMode.DirectPage =>
    let addr := c.dp + m.read c.pc
    let c := { c with pc := c.pc + 1 }
    let m := m.write addr (value % 256)
    (c, if ¬ is8bit then m.write (addr + 1) ((value >>> 8) % 256) else m)
  | AddressingMode.DirectPageIndexedX =>
    let base := m.read c.pc
    let c := { c with pc := c.pc + 1 }
    let addr := (c.dp + base + (c.x &&& 0xFF)) &&& 0xFFFF
    let m := m.write addr (value % 256)
    (c, if ¬ is8bit then m.write (addr + 1) ((value >>> 8) % 256) else m)
  | AddressingMode.DirectPageIndexedY =>
    let base := m.read c.pc
    let c := { c with pc := c.pc + 1 }
    let addr := (c.dp + base + (c.y &&& 0xFF)) &&& 0xFFFF
    let m := m.write addr (value % 256)
    (c, if ¬ is8bit then m.write (addr + 1) ((value >>> 8) % 256) else m)
  | AddressingMode.Absolute =>
    let ac := c.readAddress m AddressingMode.Absolute
    let addr := ac.1
    let c := ac.2
    let m := m.write addr (value % 256)
    (c, if ¬ is8bit then m.write (addr + 1) ((value >>> 8) % 256) else m)
  | AddressingMode.AbsoluteIndexedX =>
    let ac := c.readAddress m AddressingMode.Absolute
    let addr := ac.1 + (ac.2.x &&& 0xFFFF)
    let c := ac.2
    let m := m.write addr (value % 256)
    (c, if ¬ is8bit then m.write (addr + 1) ((value >>> 8) % 256) else m)
  | AddressingMode.AbsoluteIndexedY =>
    let ac := c.readAddress m AddressingMode.Absolute
    let addr := ac.1 + (ac.2.y &&& 0xFFFF)
    let c := ac.2
    let m := m.write addr (value % 256)
    (c, if ¬ is8bit then m.write (addr + 1) ((value >>> 8) % 256) else m)
  | AddressingMode.IndirectIndexed =>
    let dpAddr := (c.dp + m.read c.pc) &&& 0xFFFF
    let c := { c with pc := c.pc + 1 }
    let ptrLow := m.read dpAddr
    let ptrHigh := m.read ((dpAddr + 1) &&& 0xFFFF)
    let addr := ((ptrHigh <<< 8) ||| ptrLow) + (c.y &&& 0xFFFF)
    let m := m.write addr (value % 256)
    (c, if ¬ is8bit then m.write (addr + 1) ((value >>> 8) % 256) else m)
  | AddressingMode.IndexedIndirect =>
    let base := m.read c.pc
    let c := { c with pc := c.pc + 1 }
    let dpAddr := (c.dp + base + (c.x &&& 0xFF)) &&& 0xFFFF
    let ptrLow := m.read dpAddr
    let ptrHigh := m.read ((dpAddr + 1) &&& 0xFFFF)
    let addr := (ptrHigh <<< 8) ||| ptrLow
    let m := m.write addr (value % 256)
    (c, if ¬ is8bit then m.write (addr + 1) ((value >>> 8) % 256) else m)
  | _ => (c, m)

/-- getEffectiveAddress mirrors Cpu::get_effective_address. -/
def Cpu.getEffectiveAddress (c : Cpu) (m : Memory) (mode : AddressingMode) :
    Nat × Cpu :=
  match mode with
  | AddressingMode.DirectPage =>
    let addr := c.dp + m.read c.pc
    (addr, { c with pc := c.pc + 1 })
  | AddressingMode.DirectPageIndexedX =>
    let base := m.read c.pc
    let c := { c with pc := c.pc + 1 }
    ((c.dp + base + (c.x &&& 0xFF)) &&& 0xFFFF, c)
  | AddressingMode.DirectPageIndexedY =>
    let base := m.read c.pc
    let c := { c with pc := c.pc + 1 }
    ((c.dp + base + (c.y &&& 0xFF)) &&& 0xFFFF, c)
  | AddressingMode.Absolute => c.readAddress m AddressingMode.Absolute
  | AddressingMode.AbsoluteIndexedX =>
    let ac := c.readAddress m AddressingMode.Absolute
    (ac.1 + (ac.2.x &&& 0xFFFF), ac.2)
  | AddressingMode.AbsoluteIndexedY =>
    let ac := c.readAddress m AddressingMode.Absolute
    (ac.1 + (ac.2.y &&& 0xFFFF), ac.2)
  | _ => (0, c)

/-- executeOperation mirrors Cpu::execute_operation: one arm per
implemented operation; the final catch-all mirrors the source's
unimplemented-operation arm (a diagnostic print and no state change),
which is what Xce, Rep, Sep, Tcd, DecX and Rtl fall into. -/
def Cpu.executeOperation (c : Cpu) (m : Memory) (op : Operation)
    (mode : AddressingMode) : Cpu × Memory :=
  match op with
  | Operation.LoadA =>
    let vc := c.readOperand m mode false
    let c := vc.2
    let c := { c with a := if c.mFlag then (c.a &&& 0xFF00) ||| vc.1 else vc.1 }
    (c.updateNzFlagsA, m)
  | Operation.LoadX =>
    let vc := c.readOperand m mode false
    let c := vc.2
    let c := { c with x := if c.xFlag then (c.x &&& 0xFF00) ||| vc.1 else vc.1 }
    (c.updateNzFlagsX, m)
  | Operation.LoadY =>
    let vc := c.readOperand m mode false
    let c := vc.2
    let c := { c with y := if c.xFlag then (c.y &&& 0xFF00) ||| vc.1 else vc.1 }
    (c.updateNzFlagsY, m)
  | Operation.StoreA =>
    let value := if c.mFlag then c.a &&& 0xFF else c.a
    c.writeOperand m mode value false
  | Operation.StoreX =>
    let value := if c.xFlag then c.x &&& 0xFF else c.x
    c.writeOperand m mode value true
  | Operation.StoreY =>
    let value := if c.xFlag then c.y &&& 0xFF else c.y
    c.writeOperand m mode value true
  | Operation.StoreZero =>
    let ac := c.getEffectiveAddress m mode
    let c := ac.2
    if c.mFlag then (c, m.write ac.1 0)
    else (c, (m.write ac.1 0).write (ac.1 + 1) 0)
  | Operation.Add =>
    let vc := c.readOperand m mode false
    (vc.2.adc vc.1, m)
  | Operation.Sub =>
    let vc := c.readOperand m mode false
    (vc.2.sbc vc.1, m)
  | Operation.Inc =>
    match mode with
    | AddressingMode.Implied =>
      let c :=
        if c.mFlag then
          let result := (((c.a &&& 0xFF) + 1) % 65536) &&& 0xFF
          { c with a := (c.a &&& 0xFF00) ||| result }
        else { c with a := (c.a + 1) % 65536 }
      (c.updateNzFlagsA, m)
    | _ =>
      let ac := c.getEffectiveAddress m mode
      let c := ac.2
      let addr := ac.1
      if c.mFlag then
        let value := (m.read addr + 1) % 256
        (c.updateNzFlags value, m.write addr value)
      else
        let low := m.read addr
        let high := m.read (addr + 1)
        let value := (((high <<< 8) ||| low) + 1) % 65536
        (c.updateNzFlags value,
          (m.write addr (value % 256)).write (addr + 1) ((value >>> 8) % 256))
  | Operation.Dec =>
    match mode with
    | AddressingMode.Implied =>
      let c :=
        if c.mFlag then
          let result := (((c.a &&& 0xFF) + 65535) % 65536) &&& 0xFF
          { c with a := (c.a &&& 0xFF00) ||| result }
        else { c with a := (c.a + 65535) % 65536 }
      (c.updateNzFlagsA, m)
    | _ =>
      let ac := c.getEffectiveAddress m mode
      let c := ac.2
      let addr := ac.1
      if c.mFlag then
        let value := (m.read addr + 255) % 256
        (c.updateNzFlags value, m.write addr value)
      else
        let low := m.read addr
        let high := m.read (addr + 1)
        let value := (((high <<< 8) ||| low) + 65535) % 65536
        (c.updateNzFlags value,
          (m.write addr (value % 256)).write (addr + 1) ((value >>> 8) % 256))
  | Operation.And =>
    let vc := c.readOperand m mode false
    let c := vc.2
    let c :=
      if c.mFlag then { c with a := (c.a &&& 0xFF00) ||| ((c.a &&& 0xFF) &&& vc.1) }
      else { c with a := c.a &&& vc.1 }
    (c.updateNzFlagsA, m)
  | Operation.Or =>
    let vc := c.readOperand m mode false
    let c := vc.2
    let c :=
      if c.mFlag then { c with a := (c.a &&& 0xFF00) ||| ((c.a &&& 0xFF) ||| vc.1) }
      else { c with a := c.a ||| vc.1 }
    (c.updateNzFlagsA, m)
  | Operation.Xor =>
    let vc := c.readOperand m mode false
    let c := vc.2
    let c :=
      if c.mFlag then { c with a := (c.a &&& 0xFF00) ||| ((c.a &&& 0xFF) ^^^ vc.1) }
      else { c with a := c.a ^^^ vc.1 }
    (c.updateNzFlagsA, m)
  | Operation.Compare =>
    let vc := c.readOperand m mode false
    let c := vc.2
    let accValue := if c.mFlag then c.a &&& 0xFF else c.a
    (c.compare accValue vc.1, m)
  | Operation.CompareX =>
    let vc := c.readOperand m mode true
    let c := vc.2
    let xValue := if c.xFlag then c.x &&& 0xFF else c.x
    (c.compare xValue vc.1, m)
  | Operation.CompareY =>
    let vc := c.readOperand m mode true
    let c := vc.2
    let yValue := if c.xFlag then c.y &&& 0xFF else c.y
    (c.compare yValue vc.1, m)
  | Operation.ShiftLeft =>
    match mode with
    | AddressingMode.Implied =>
      if c.mFlag then
        let value := c.a &&& 0xFF
        let c := c.setCarryFlag ((value &&& 0x80) != 0)
        let result := (value <<< 1) &&& 0xFF
        let c := { c with a := (c.a &&& 0xFF00) ||| result }
        (c.updateNzFlags result, m)
      else
        let c := c.setCarryFlag ((c.a &&& 0x8000) != 0)
        let c := { c with a := (c.a <<< 1) % 65536 }
        (c.updateNzFlags c.a, m)
    | _ =>
      let ac := c.getEffectiveAddress m mode
      let c := ac.2
      let addr := ac.1
      if c.mFlag then
        let value := m.read addr
        let c := c.setCarryFlag ((value &&& 0x80) != 0)
        let result := (value <<< 1) % 256
        (c.updateNzFlags result, m.write addr result)
      else
        let low := m.read addr
        let high := m.read (addr + 1)
        let value := (high <<< 8) ||| low
        let c := c.setCarryFlag ((value &&& 0x8000) != 0)
        let result := (value <<< 1) % 65536
        (c.updateNzFlags result,
          (m.write addr (result % 256)).write (addr + 1) ((result >>> 8) % 256))
  | Operation.ShiftRight =>
    match mode with
    | AddressingMode.Implied =>
      if c.mFlag then
        let value := c.a &&& 0xFF
        let c := c.setCarryFlag ((value &&& 0x01) != 0)
        let result := value >>> 1
        let c := { c with a := (c.a &&& 0xFF00) ||| result }
        (c.updateNzFlags result, m)
      else
        let c := c.setCarryFlag ((c.a &&& 0x0001) != 0)
        let c := { c with a := c.a >>> 1 }
        (c.updateNzFlags c.a, m)
    | _ =>
      let ac := c.getEffectiveAddress m mode
      let c := ac.2
      let addr := ac.1
      if c.mFlag then
        let value := m.read addr
        let c := c.setCarryFlag ((value &&& 0x01) != 0)
        let result := value >>> 1
        (c.updateNzFlags result, m.write addr result)
      else
        let low := m.read addr
        let high := m.read (addr + 1)
        let value := (high <<< 8) ||| low
        let c := c.setCarryFlag ((value &&& 0x0001) != 0)
        let result := value >>> 1
        (c.updateNzFlags result,
          (m.write addr (result % 256)).write (addr + 1) ((result >>> 8) % 256))
  | Operation.TransferAX =>
    let c :=
      if c.xFlag then { c with x := (c.x &&& 0xFF00) ||| (c.a &&& 0xFF) }
      else { c with x := c.a }
    (c.updateNzFlagsX, m)
  | Operation.TransferAY =>
    let c :=
      if c.xFlag then { c with y := (c.y &&& 0xFF00) ||| (c.a &&& 0xFF) }
      else { c with y := c.a }
    (c.updateNzFlagsY, m)
  | Operation.TransferXA =>
    let c :=
      if c.mFlag then { c with a := (c.a &&& 0xFF00) ||| (c.x &&& 0xFF) }
      else { c with a := c.x }
    (c.updateNzFlagsA, m)
  | Operation.TransferYA =>
    let c :=
      if c.mFlag then { c with a := (c.a &&& 0xFF00) ||| (c.y &&& 0xFF) }
      else { c with a := c.y }
    (c.updateNzFlagsA, m)
  | Operation.TransferSX =>
    let c :=
      if c.xFlag then { c with x := (c.x &&& 0xFF00) ||| (c.sp &&& 0xFF) }
      else { c with x := c.sp }
    (c.updateNzFlagsX, m)
  | Operation.TransferXS =>
    let c :=
      if c.eFlag then { c with sp := 0x0100 ||| (c.x &&& 0xFF) }
      else if c.xFlag then { c with sp := (c.sp &&& 0xFF00) ||| (c.x &&& 0xFF) }
      else { c with sp := c.x }
    (c, m)
  | Operation.TransferXY =>
    let c :=
      if c.xFlag then { c with y := (c.y &&& 0xFF00) ||| (c.x &&& 0xFF) }
      else { c with y := c.x }
    (c.updateNzFlagsY, m)
  | Operation.TransferYX =>
    let c :=
      if c.xFlag then { c with x := (c.x &&& 0xFF00) ||| (c.y &&& 0xFF) }
      else { c with x := c.y }
    (c.updateNzFlagsX, m)
  | Operation.TransferSC =>
    let c :=
      if c.mFlag then { c with a := (c.sp &&& 0xFF00) ||| (c.sp &&& 0xFF) }
      else { c with a := c.sp }
    (c.updateNzFlagsA, m)
  | Operation.TransferCS =>
    let c :=
      if c.eFlag then { c with sp := 0x0100 ||| (c.sp &&& 0xFF) }
      else if c.mFlag then { c with sp := (c.sp &&& 0xFF00) ||| (c.a &&& 0xFF) }
      else { c with sp := c.a }
    (c, m)
  | Operation.PushA =>
    if c.mFlag then c.pushByte m ((c.a &&& 0xFF) % 256)
    else
      let r1 := c.pushByte m ((c.a >>> 8) % 256)
      r1.1.pushByte r1.2 ((c.a &&& 0xFF) % 256)
  | Operation.PullA =>
    if c.mFlag then
      let vc := c.pullByte m
      let c := { vc.2 with a := (vc.2.a &&& 0xFF00) ||| vc.1 }
      (c.updateNzFlagsA, m)
    else
      let lo := c.pullByte m
      let hi := lo.2.pullByte m
      let c := { hi.2 with a := (hi.1 <<< 8) ||| lo.1 }
      (c.updateNzFlagsA, m)
  | Operation.PushP => c.pushByte m c.p
  | Operation.PullP =>
    let vc := c.pullByte m
    (({ vc.2 with p := vc.1 }).updateModeFlags, m)
  | Operation.PushX =>
    if c.xFlag then c.pushByte m ((c.x &&& 0xFF) % 256)
    else
      let r1 := c.pushByte m ((c.x >>> 8) % 256)
      r1.1.pushByte r1.2 ((c.x &&& 0xFF) % 256)
  | Operation.PullX =>
    if c.xFlag then
      let vc := c.pullByte m
      let c := { vc.2 with x := (vc.2.x &&& 0xFF00) ||| vc.1 }
      (c.updateNzFlagsX, m)
    else
      let lo := c.pullByte m
      let hi := lo.2.pullByte m
      let c := { hi.2 with x := (hi.1 <<< 8) ||| lo.1 }
      (c.updateNzFlagsX, m)
  | Operation.PushY =>
    if c.xFlag then c.pushByte m ((c.y &&& 0xFF) % 256)
    else
      let r1 := c.pushByte m ((c.y >>> 8) % 256)
      r1.1.pushByte r1.2 ((c.y &&& 0xFF) % 256)
  | Operation.PullY =>
    if c.xFlag then
      let vc := c.pullByte m
      let c := { vc.2 with y := (vc.2.y &&& 0xFF00) ||| vc.1 }
      (c.updateNzFlagsY, m)
    else
      let lo := c.pullByte m
      let hi := lo.2.pullByte m
      let c := { hi.2 with y := (hi.1 <<< 8) ||| lo.1 }
      (c.updateNzFlagsY, m)
  | Operation.JumpSubroutine =>
    let tc := c.readAddress m mode
    let c := tc.2
    let returnAddr := c.pc - 1
    let r1 := c.pushByte m ((returnAddr >>> 8) % 256)
    let r2 := r1.1.pushByte r1.2 (returnAddr % 256)
    ({ r2.1 with pc := tc.1 }, r2.2)
  | Operation.ReturnFromSubroutine =>
    let lo := c.pullByte m
    let hi := lo.2.pullByte m
    ({ hi.2 with pc := ((hi.1 <<< 8) ||| lo.1) + 1 }, m)
  | Operation.ReturnFromInterrupt =>
    let pv := c.pullByte m
    let c := { pv.2 with p := pv.1 }
    let lo := c.pullByte m
    let hi := lo.2.pullByte m
    let c := { hi.2 with pc := (hi.1 <<< 8) ||| lo.1 }
    (c.updateModeFlags, m)
  | Operation.SoftwareInterrupt =>
    let c := { c with pc := c.pc + 1 }
    let r1 := c.pushByte m ((c.pc >>> 8) % 256)
    let r2 := r1.1.pushByte r1.2 (c.pc % 256)
    let r3 := r2.1.pushByte r2.2 ((c.p ||| 0x10) % 256)
    let c := { r3.1 with p := r3.1.p ||| FLAG_IRQ }
    let brkLow := r3.2.read 0x00FFFE
    let brkHigh := r3.2.read 0x00FFFF
    ({ c with pc := (brkHigh <<< 8) ||| brkLow }, r3.2)
  | Operation.SetFlag flag => (c.setFlag flag, m)
  | Operation.ClearFlag flag => (c.clearFlag flag, m)
  | Operation.Jump =>
    let ac := c.readAddress m mode
    ({ ac.2 with pc := ac.1 }, m)
  | Operation.JumpIndirect =>
    let ac := c.readAddress m AddressingMode.Absolute
    let c := ac.2
    let addrLow := m.read ac.1
    let addrHigh := m.read (ac.1 + 1)
    ({ c with pc := (addrHigh <<< 8) ||| addrLow }, m)
  | Operation.Branch flag condition =>
    let flagSet := c.getFlag flag
    let shouldBranch := flagSet == condition
    let offset := m.read c.pc
    let c := { c with pc := c.pc + 1 }
    if shouldBranch then
      ({ c with pc := (((c.pc : Int) + toI8 offset) % 4294967296).toNat }, m)
    else (c, m)
  | Operation.Nop => (c, m)
  | _ => (c, m)

/-- adjustCycles mirrors Cpu::adjust_cycles. -/
def Cpu.adjustCycles (c : Cpu) (baseCycles : Nat) (mode : AddressingMode) : Nat :=
  match mode with
  | AddressingMode.Immediate =>
    if ¬ c.mFlag ∨ ¬ c.xFlag then baseCycles + 1 else baseCycles
  | _ => baseCycles

/-- executeInstruction mirrors Cpu::execute_instruction: decode through the
table, execute and adjust cycles on a hit; on a miss print a diagnostic
(no state effect) and charge 2 cycles. -/
def Cpu.executeInstruction (c : Cpu) (m : Memory) (opcode : Nat) :
    (Cpu × Memory) × Nat :=
  match getOpcodeInfo opcode with
  | some info =>
    let r := c.executeOperation m info.operation info.mode
    ((r.1, r.2), r.1.adjustCycles info.cycles info.mode)
  | none => ((c, m), 2)

/-- step mirrors Cpu::step: fetch at pc, advance pc, execute, accumulate
the cycle count and return it. -/
def Cpu.step (c : Cpu) (m : Memory) : (Cpu × Memory) × Nat :=
  let opcode := m.read c.pc
  let c := { c with pc := c.pc + 1 }
  let r := c.executeInstruction m opcode
  (({ r.1.1 with cycles := r.1.1.cycles + r.2 }, r.1.2), r.2)

/-- zeroMem is a Memory whose stores are all zero-filled, with no ROM, no
SRAM and an empty register map. -/
def zeroMem : Memory :=
  { wram := fun _ => 0
    romLen := 0
    romData := fun _ => 0
    vram := fun _ => 0
    oam := fun _ => 0
    cgram := fun _ => 0
    sramLen := 0
    sramData := fun _ => 0
    registers := fun _ => none
    romType := RomType.LoRom
    sramSize := 0 }

/-- romC1 is a one-byte cartridge whose single ROM byte is 0x12. -/
def romC1 : Nat → Nat := fun _ => 0x12

/-- memC1 is the Memory Memory::new builds from the one-byte cartridge
romC1 (LoROM fallback, no SRAM). -/
def memC1 : Memory :=
  { zeroMem with romLen := 1, romData := romC1 }

/-- romC4 is a 64 KiB cartridge whose SRAM-size header byte 0x7FD8 is 0x03
(32 KiB), as in the repository's own test ROM. -/
def romC4 : Nat → Nat := fun i => if i = 0x7FD8 then 0x03 else 0

/-- memC4 is the Memory Memory::new builds from romC4: LoROM with 32 KiB
of zero-filled SRAM. -/
def memC4 : Memory :=
  { zeroMem with romLen := 0x10000, romData := romC4, sramLen := 0x8000, sramSize := 0x8000 }

/-- romC5 is a 64 KiB cartridge with a valid HiROM header checksum
(0xFFFF + 0x0000) and first ROM byte 0x12. -/
def romC5 : Nat → Nat := fun i =>
  if i = 0 then 0x12
  else if i = 0xFFDC then 0xFF
  else if i = 0xFFDD then 0xFF
  else 0

/-- memC5 is the Memory Memory::new builds from romC5: detected HiROM, no
SRAM. -/
def memC5 : Memory :=
  { zeroMem with romLen := 0x10000, romData := romC5, romType := RomType.HiRom }

/-- romC6 is a 32 KiB cartridge whose emulation reset vector bytes at ROM
offsets 0x7FFC/0x7FFD (bus addresses 0x00FFFC/0x00FFFD) hold 0x34/0x12,
i.e. reset vector 0x1234. -/
def romC6 : Nat → Nat := fun i =>
  if i = 0x7FFC then 0x34 else if i = 0x7FFD then 0x12 else 0

/-- memC6 is the Memory built from romC6. -/
def memC6 : Memory :=
  { zeroMem with romLen := 0x8000, romData := romC6 }

/-- memC2 is a Memory whose reset-position ROM byte is 0x02, an opcode
with no decode-table entry. -/
def memC2 : Memory :=
  { zeroMem with romLen := 1, romData := fun _ => 0x02 }

/-- memC3 is a Memory whose program at the reset position is REP #$FF
(0xC2 0xFF). -/
def memC3 : Memory :=
  { zeroMem with romLen := 2, romData := fun i => if i = 0 then 0xC2 else 0xFF }

/-- cpuC3 is a CPU at the reset position with all eight status bits set. -/
def cpuC3 : Cpu :=
  { Cpu.new with p := 0xFF }

/-- cpuC7 is an 8-bit-mode CPU with accumulator 5 and the carry flag
clear. -/
def cpuC7 : Cpu :=
  { Cpu.new with a := 5, p := 0x30 }

/-- cpuC8 is a CPU in 16-bit accumulator mode but 8-bit index mode whose
accumulator has only bit 15 set. -/
def cpuC8 : Cpu :=
  { Cpu.new with mFlag := false, xFlag := true, a := 0x8000, p := 0 }

/-! Helper lemmas about Nat bitwise arithmetic used by several claims. -/

theorem nat_and_lor_right (a b c : Nat) : (a ||| b) &&& c = (a &&& c) ||| (b &&& c) := by
  apply Nat.eq_of_testBit_eq
  intro i
  simp [Nat.testBit_and, Nat.testBit_or, Bool.and_or_distrib_right]

theorem nat_and255 (x : Nat) : x &&& 255 = x % 256 :=
  Nat.and_pow_two_sub_one_eq_mod x 8

theorem nat_and65535 (x : Nat) : x &&& 65535 = x % 65536 :=
  Nat.and_pow_two_sub_one_eq_mod x 16

theorem nat_and63 (x : Nat) : x &&& 63 = x % 64 :=
  Nat.and_pow_two_sub_one_eq_mod x 6

theorem nat_hi_and255 (x : Nat) : (x &&& 0xFF00) &&& 255 = 0 := by
  rw [Nat.land_assoc, (by decide : (0xFF00 &&& 255 : Nat) = 0)]
  simp

theorem nat_hiLow8 (hi r : Nat) (h : r < 256) : ((hi &&& 0xFF00) ||| r) &&& 255 = r := by
  rw [nat_and_lor_right, nat_hi_and255, Nat.zero_or, nat_and255, Nat.mod_eq_of_lt h]

theorem nat_hiLow8_mod (hi r : Nat) (h : r < 256) : ((hi &&& 0xFF00) ||| r) % 256 = r := by
  rw [← nat_and255, nat_hiLow8 hi r h]

theorem nat_shl16_lor (k r : Nat) (h : r < 65536) :
    (k <<< 16) ||| r = k * 65536 + r := by
  have h1 : k <<< 16 = 2 ^ 16 * k := by rw [Nat.shiftLeft_eq]; ring
  have h2 : r < 2 ^ 16 := by omega
  rw [h1, ← Nat.mul_add_lt_is_or h2 k]
  ring_nf

/-- C2: for every opcode byte with no decode-table entry, one Cpu::step
advances pc by exactly 1, returns and accumulates exactly 2 cycles, and
leaves A, X, Y, SP, DP, DB, PB, P (and the memory) unchanged, for every
starting CPU state and memory contents. -/
theorem c2_unknown_opcode_step (c : Cpu) (m : Memory)
    (h : getOpcodeInfo (m.read c.pc) = none) :
    (c.step m).1.1.pc = c.pc + 1 ∧
    (c.step m).2 = 2 ∧
    (c.step m).1.1.cycles = c.cycles + 2 ∧
    (c.step m).1.1.a = c.a ∧ (c.step m).1.1.x = c.x ∧ (c.step m).1.1.y = c.y ∧
    (c.step m).1.1.sp = c.sp ∧ (c.step m).1.1.dp = c.dp ∧
    (c.step m).1.1.db = c.db ∧ (c.step m).1.1.pb = c.pb ∧
    (c.step m).1.1.p = c.p ∧ (c.step m).1.2 = m := by
  simp [Cpu.step, Cpu.executeInstruction, h]

/-- Witness for c2_unknown_opcode_step: opcode 0x02 has no table entry and
stepping from reset over it advances pc from 0x8000 to 0x8001. -/
theorem c2_unknown_opcode_step_witness :
    getOpcodeInfo (memC2.read Cpu.new.pc) = none ∧
    (Cpu.new.step memC2).1.1.pc = Cpu.new.pc + 1 :=
  ⟨rfl, (c2_unknown_opcode_step Cpu.new memC2 rfl).1⟩

/-- C3 counterexample: executing REP #$FF (0xC2 0xFF) from a CPU whose P
is 0xFF does not clear the bits of P (P stays 0xFF, not 0xFF masked by the
complement of the immediate) and does not advance pc past the operand. -/
theorem c3_counterexample :
    memC3.read cpuC3.pc = 0xC2 ∧
    memC3.read (cpuC3.pc + 1) = 0xFF ∧
    ¬ ((cpuC3.step memC3).1.1.p = cpuC3.p &&& (0xFF ^^^ memC3.read (cpuC3.pc + 1)) ∧
       (cpuC3.step memC3).1.1.pc = cpuC3.pc + 2) := by
  refine ⟨by decide, by decide, ?_⟩
  intro h
  exact absurd h.1 (by decide)

/-- C3 amended: the opcodes 0xC2 (REP), 0xE2 (SEP) and 0xFB (XCE) are in
the decode table but their operations fall into the unimplemented-operation
catch-all of Cpu::execute_operation: stepping over any of them leaves P,
the live mode flags, the E latch and all registers unchanged, and advances
pc only past the opcode byte (the immediate operand is not consumed). -/
theorem c3_modal_opcodes_unimplemented (c : Cpu) (m : Memory)
    (h : m.read c.pc = 0xC2 ∨ m.read c.pc = 0xE2 ∨ m.read c.pc = 0xFB) :
    (c.step m).1.1.p = c.p ∧
    (c.step m).1.1.mFlag = c.mFlag ∧
    (c.step m).1.1.xFlag = c.xFlag ∧
    (c.step m).1.1.eFlag = c.eFlag ∧
    (c.step m).1.1.pc = c.pc + 1 ∧
    (c.step m).1.1.a = c.a ∧ (c.step m).1.1.x = c.x ∧ (c.step m).1.1.y = c.y ∧
    (c.step m).1.1.sp = c.sp ∧ (c.step m).1.1.dp = c.dp ∧
    (c.step m).1.2 = m := by
  have hC2 : getOpcodeInfo 0xC2 =
      some ⟨Operation.Rep, AddressingMode.Immediate, 3⟩ := rfl
  have hE2 : getOpcodeInfo 0xE2 =
      some ⟨Operation.Sep, AddressingMode.Immediate, 3⟩ := rfl
  have hFB : getOpcodeInfo 0xFB =
      some ⟨Operation.Xce, AddressingMode.Implied, 2⟩ := rfl
  have hRep : ∀ (c1 : Cpu) (m1 : Memory) (mo : AddressingMode),
      c1.executeOperation m1 Operation.Rep mo = (c1, m1) := fun _ _ mo => by
    cases mo <;> rfl
  have hSep : ∀ (c1 : Cpu) (m1 : Memory) (mo : AddressingMode),
      c1.executeOperation m1 Operation.Sep mo = (c1, m1) := fun _ _ mo => by
    cases mo <;> rfl
  have hXce : ∀ (c1 : Cpu) (m1 : Memory) (mo : AddressingMode),
      c1.executeOperation m1 Operation.Xce mo = (c1, m1) := fun _ _ mo => by
    cases mo <;> rfl
  rcases h with h | h | h <;>
    simp [Cpu.step, Cpu.executeInstruction, h, hC2, hE2, hFB, hRep, hSep, hXce]

/-- Witness for c3_modal_opcodes_unimplemented at REP: P stays 0xFF. -/
theorem c3_modal_opcodes_unimplemented_witness :
    memC3.read cpuC3.pc = 0xC2 ∧ (cpuC3.step memC3).1.1.p = cpuC3.p :=
  ⟨by decide, (c3_modal_opcodes_unimplemented cpuC3 memC3 (Or.inl (by decide))).1⟩

/-- C6 counterexample: Cpu::reset sets sp to 0x01FF (not zero) and sets pc
to the constant 0x008000, ignoring the reset vector 0x1234 stored
little-endian at 0x00FFFC/0x00FFFD of this memory. -/
theorem c6_counterexample :
    ((memC6.read 0x00FFFD) <<< 8) ||| memC6.read 0x00FFFC = 0x1234 ∧
    Cpu.new.reset.sp = 0x01FF ∧
    Cpu.new.reset.pc = 0x008000 ∧
    ¬ (Cpu.new.reset.sp = 0 ∧
       Cpu.new.reset.pc = ((memC6.read 0x00FFFD) <<< 8) ||| memC6.read 0x00FFFC) := by
  refine ⟨by decide, by decide, by decide, ?_⟩
  intro h
  exact absurd h.1 (by decide)

/-- C6 amended: reset zeroes A, X, Y, DP, DB and PB, sets SP to 0x01FF,
P to 0x34, the mode flags to emulation-mode defaults, clears the cycle
counter, and loads pc with the fixed value 0x008000; no memory (hence no
reset vector) is consulted. -/
theorem c6_reset_amended (c : Cpu) :
    c.reset = { a := 0
                x := 0
                y := 0
                sp := 0x01FF
                pc := 0x008000
                dp := 0
                db := 0
                pb := 0
                p := 0x34
                mFlag := true
                xFlag := true
                eFlag := true
                cycles := 0 } := rfl

/-- C4: the bank 0x80..=0xBF arm of Memory::read/write has no
0x6000..=0x7FFF SRAM case, so a write to 0x807000 is discarded and the
read returns 0, while the identical access through bank 0x00 stores and
returns 0xAA; the repository's own tests (memory.rs test_sram_read_write
and tests/memory_tests.rs) assert 0xAA for both. -/
theorem c4_sram_mirror_missing :
    Memory.new 0x10000 romC4 = some memC4 ∧
    (memC4.write 0x006000 0xAA).read 0x006000 = 0xAA ∧
    (memC4.write 0x807000 0xAA).read 0x807000 = 0 ∧
    (memC4.write 0x807000 0xAA).sramData 0x1000 = 0 :=
  ⟨rfl, by decide, by decide, by decide⟩

/-- C5 counterexample: on a detected-HiROM memory, reading bank 0x40 at
offset 0 returns 0, not the ROM byte at (bank masked to 0x3F) * 0x10000 +
offset = 0 (which is 0x12). -/
theorem c5_counterexample :
    Memory.new 0x10000 romC5 = some memC5 ∧
    memC5.romType = RomType.HiRom ∧
    memC5.romGet ((0x40 &&& 0x3F) * 0x10000 + 0x0000) = 0x12 ∧
    memC5.read 0x400000 = 0 ∧
    ¬ (memC5.read 0x400000 = memC5.romGet ((0x40 &&& 0x3F) * 0x10000 + 0x0000)) :=
  ⟨rfl, by decide, by decide, by decide, by decide⟩

/-! Projection lemmas: the flag-setting helpers of Cpu only modify p. -/

@[simp] theorem setCarryFlag_a (c : Cpu) (b : Bool) : (c.setCarryFlag b).a = c.a := by
  unfold Cpu.setCarryFlag; split <;> rfl

@[simp] theorem setCarryFlag_mFlag (c : Cpu) (b : Bool) :
    (c.setCarryFlag b).mFlag = c.mFlag := by
  unfold Cpu.setCarryFlag; split <;> rfl

@[simp] theorem setCarryFlag_xFlag (c : Cpu) (b : Bool) :
    (c.setCarryFlag b).xFlag = c.xFlag := by
  unfold Cpu.setCarryFlag; split <;> rfl

@[simp] theorem setOverflowFlagAdd_a (c : Cpu) (x y z : Nat) :
    (c.setOverflowFlagAdd x y z).a = c.a := by
  unfold Cpu.setOverflowFlagAdd; split <;> rfl

@[simp] theorem setOverflowFlagAdd_mFlag (c : Cpu) (x y z : Nat) :
    (c.setOverflowFlagAdd x y z).mFlag = c.mFlag := by
  unfold Cpu.setOverflowFlagAdd; split <;> rfl

@[simp] theorem setOverflowFlagAdd_xFlag (c : Cpu) (x y z : Nat) :
    (c.setOverflowFlagAdd x y z).xFlag = c.xFlag := by
  unfold Cpu.setOverflowFlagAdd; split <;> rfl

@[simp] theorem setOverflowFlagAdd16_a (c : Cpu) (x y z : Nat) :
    (c.setOverflowFlagAdd16 x y z).a = c.a := by
  unfold Cpu.setOverflowFlagAdd16; split <;> rfl

@[simp] theorem setOverflowFlagAdd16_mFlag (c : Cpu) (x y z : Nat) :
    (c.setOverflowFlagAdd16 x y z).mFlag = c.mFlag := by
  unfold Cpu.setOverflowFlagAdd16; split <;> rfl

@[simp] theorem setOverflowFlagAdd16_xFlag (c : Cpu) (x y z : Nat) :
    (c.setOverflowFlagAdd16 x y z).xFlag = c.xFlag := by
  unfold Cpu.setOverflowFlagAdd16; split <;> rfl

@[simp] theorem setOverflowFlagSub_a (c : Cpu) (x y z : Nat) :
    (c.setOverflowFlagSub x y z).a = c.a := by
  unfold Cpu.setOverflowFlagSub; split <;> rfl

@[simp] theorem setOverflowFlagSub_mFlag (c : Cpu) (x y z : Nat) :
    (c.setOverflowFlagSub x y z).mFlag = c.mFlag := by
  unfold Cpu.setOverflowFlagSub; split <;> rfl

@[simp] theorem setOverflowFlagSub_xFlag (c : Cpu) (x y z : Nat) :
    (c.setOverflowFlagSub x y z).xFlag = c.xFlag := by
  unfold Cpu.setOverflowFlagSub; split <;> rfl

@[simp] theorem setOverflowFlagSub16_a (c : Cpu) (x y z : Nat) :
    (c.setOverflowFlagSub16 x y z).a = c.a := by
  unfold Cpu.setOverflowFlagSub16; split <;> rfl

@[simp] theorem setOverflowFlagSub16_mFlag (c : Cpu) (x y z : Nat) :
    (c.setOverflowFlagSub16 x y z).mFlag = c.mFlag := by
  unfold Cpu.setOverflowFlagSub16; split <;> rfl

@[simp] theorem setOverflowFlagSub16_xFlag (c : Cpu) (x y z : Nat) :
    (c.setOverflowFlagSub16 x y z).xFlag = c.xFlag := by
  unfold Cpu.setOverflowFlagSub16; split <;> rfl

@[simp] theorem updateNzFlags_a (c : Cpu) (value : Nat) :
    (c.updateNzFlags value).a = c.a := rfl

@[simp] theorem updateNzFlags_mFlag (c : Cpu) (value : Nat) :
    (c.updateNzFlags value).mFlag = c.mFlag := rfl

@[simp] theorem updateNzFlags_xFlag (c : Cpu) (value : Nat) :
    (c.updateNzFlags value).xFlag = c.xFlag := rfl

@[simp] theorem updateNzFlagsA_a (c : Cpu) : c.updateNzFlagsA.a = c.a := rfl

@[simp] theorem updateNzFlagsA_mFlag (c : Cpu) : c.updateNzFlagsA.mFlag = c.mFlag := rfl

@[simp] theorem updateNzFlagsA_xFlag (c : Cpu) : c.updateNzFlagsA.xFlag = c.xFlag := rfl

/-- getFlag of the carry bit is true immediately after setCarryFlag true,
whatever the rest of p holds. -/
theorem getFlag_carry_after_set (c : Cpu) :
    (c.setCarryFlag true).getFlag FLAG_CARRY = true := by
  unfold Cpu.setCarryFlag Cpu.getFlag FLAG_CARRY
  simp only [if_pos trivial, bne_iff_ne, ne_eq]
  rw [nat_and_lor_right]
  intro h
  have := congrArg (Nat.testBit · 0) h
  simp at this

/-- C10: at cartridge length exactly 0x7FD8 the SRAM-size guard passes but
the header index 0x7FD8 is out of bounds, so Memory::new aborts (none)
instead of returning SRAM size 0; below the boundary everything degrades
gracefully to LoROM with zero SRAM as the spec describes. -/
theorem c10_sram_detect_boundary_aborts :
    detectSramSize 0x7FD8 (fun _ => 0) = none ∧
    Memory.new 0x7FD8 (fun _ => 0) = none ∧
    detectRomType 0x7FD8 (fun _ => 0) = RomType.LoRom ∧
    detectSramSize 0x7FD7 (fun _ => 0) = some 0 ∧
    (Memory.new 0x7FD7 (fun _ => 0)).isSome = true :=
  ⟨rfl, rfl, rfl, rfl, rfl⟩

/-- C7 counterexample: with A = 5 in 8-bit mode and the carry flag clear
before both operations (ADC 3 leaves it clear here), ADC 3 then SBC 3
yields 4, not the original 5: carry-clear SBC subtracts an extra borrow. -/
theorem c7_counterexample :
    cpuC7.mFlag = true ∧
    cpuC7.getFlag FLAG_CARRY = false ∧
    (cpuC7.adc 3).getFlag FLAG_CARRY = false ∧
    ((cpuC7.adc 3).sbc 3).a &&& 0xFF = 4 ∧
    ¬ (((cpuC7.adc 3).sbc 3).a &&& 0xFF = cpuC7.a &&& 0xFF) :=
  ⟨by decide, by decide, by decide, by decide, by decide⟩

/-- C7 amended: carry-clear ADC followed by carry-set SBC of the same
operand restores the accumulator modulo the width mask (0xFF in 8-bit
mode, 0xFFFF in 16-bit mode). -/
theorem c7_adc_sbc_roundtrip_amended (c : Cpu) (op : Nat)
    (ha : c.a < 0x10000)
    (hop : op ≤ (if c.mFlag then 0xFF else 0xFFFF))
    (hcarry : c.getFlag FLAG_CARRY = false) :
    (((c.adc op).setCarryFlag true).sbc op).a &&&
        (if c.mFlag then 0xFF else 0xFFFF) =
      c.a &&& (if c.mFlag then 0xFF else 0xFFFF) := by
  have hcarry2 := getFlag_carry_after_set (c.adc op)
  cases hm : c.mFlag with
  | true =>
    rw [hm] at hop
    simp only [hm, if_pos trivial] at hop ⊢
    have hadc_a : (c.adc op).a = (c.a &&& 0xFF00) ||| (((c.a &&& 0xFF) + op) &&& 0xFF) := by
      unfold Cpu.adc
      rw [hcarry]
      simp [hm]
    have hadc_m : (c.adc op).mFlag = true := by
      unfold Cpu.adc
      simp [hm]
    set c1 := (c.adc op).setCarryFlag true with hc1
    have hc1_a : c1.a = (c.a &&& 0xFF00) ||| (((c.a &&& 0xFF) + op) &&& 0xFF) := by
      rw [hc1, setCarryFlag_a, hadc_a]
    have hc1_m : c1.mFlag = true := by rw [hc1, setCarryFlag_mFlag, hadc_m]
    have hacc : c1.a % 256 = (c.a % 256 + op) % 256 := by
      rw [hc1_a]
      simp only [nat_and255]
      exact nat_hiLow8_mod _ _ (by omega)
    unfold Cpu.sbc
    rw [hcarry2, hc1_m]
    simp only [if_pos trivial, updateNzFlagsA_a, setOverflowFlagSub_a, setCarryFlag_a]
    simp only [nat_and255]
    rw [hacc]
    rw [nat_hiLow8_mod _ _ (by omega)]
    omega
  | false =>
    rw [hm] at hop
    simp only [hm, Bool.false_eq_true, if_false] at hop ⊢
    have hadc_a : (c.adc op).a = (c.a + op) % 65536 := by
      unfold Cpu.adc
      rw [hcarry]
      simp [hm]
    have hadc_m : (c.adc op).mFlag = false := by
      unfold Cpu.adc
      simp [hm]
    set c1 := (c.adc op).setCarryFlag true with hc1
    have hc1_a : c1.a = (c.a + op) % 65536 := by
      rw [hc1, setCarryFlag_a, hadc_a]
    have hc1_m : c1.mFlag = false := by rw [hc1, setCarryFlag_mFlag, hadc_m]
    unfold Cpu.sbc
    rw [hcarry2, hc1_m]
    simp only [Bool.false_eq_true, if_false, if_true, updateNzFlagsA_a,
      setOverflowFlagSub16_a, setCarryFlag_a]
    rw [hc1_a]
    simp only [nat_and65535]
    omega

/-- Witness for c7_adc_sbc_roundtrip_amended: A = 5, operand 3, 8-bit
mode, carry clear. -/
theorem c7_adc_sbc_roundtrip_amended_witness :
    (cpuC7.a < 0x10000 ∧ cpuC7.getFlag FLAG_CARRY = false) ∧
    (((cpuC7.adc 3).setCarryFlag true).sbc 3).a &&&
        (if cpuC7.mFlag then 0xFF else 0xFFFF) =
      cpuC7.a &&& (if cpuC7.mFlag then 0xFF else 0xFFFF) :=
  ⟨⟨by decide, by decide⟩,
    c7_adc_sbc_roundtrip_amended cpuC7 3 (by decide) (by decide) (by decide)⟩

theorem nat_and_chain (x : Nat) {a b : Nat} (h : a &&& b = 0) : (x &&& a) &&& b = 0 := by
  rw [Nat.land_assoc, h, Nat.and_zero]

theorem nat_lor_ne_zero_right (x t : Nat) (ht : t ≠ 0) : x ||| t ≠ 0 := by
  intro h
  apply ht
  apply Nat.eq_of_testBit_eq
  intro i
  have h2 := congrArg (fun z => Nat.testBit z i) h
  simp only [Nat.testBit_or, Nat.zero_testBit, Bool.or_eq_false_iff] at h2
  simp [h2.2]

theorem natM_and2 : ((255 ^^^ (2 ||| 128)) : Nat) &&& 2 = 0 := by decide

theorem natM_and128 : ((255 ^^^ (2 ||| 128)) : Nat) &&& 128 = 0 := by decide

/-- Zero-flag extraction for update_nz_flags: Z is set in the produced p
exactly when the value written is zero. -/
theorem updateNz_bit_z (c : Cpu) (value : Nat) :
    ((c.updateNzFlags value).p &&& FLAG_ZERO ≠ 0) ↔ value = 0 := by
  simp only [Cpu.updateNzFlags, FLAG_ZERO, FLAG_NEGATIVE]
  by_cases hmx : (c.mFlag ∨ c.xFlag) <;>
    [simp only [if_pos hmx]; simp only [if_neg hmx]] <;>
    split_ifs with hn hz hz <;>
    simp only [nat_and_lor_right, nat_and_chain c.p natM_and2] <;>
    simp_all <;> decide

/-- Negative-flag extraction for update_nz_flags: N is set in the produced
p exactly when the value has the test bit, which the source chooses as
bit 7 whenever either width flag selects 8-bit mode and bit 15 only when
both select 16-bit mode. -/
theorem updateNz_bit_n (c : Cpu) (value : Nat) :
    ((c.updateNzFlags value).p &&& FLAG_NEGATIVE ≠ 0) ↔
      value &&& (if c.mFlag ∨ c.xFlag then 0x80 else 0x8000) ≠ 0 := by
  simp only [Cpu.updateNzFlags, FLAG_ZERO, FLAG_NEGATIVE]
  by_cases hmx : (c.mFlag ∨ c.xFlag) <;>
    [simp only [if_pos hmx]; simp only [if_neg hmx]] <;>
    split_ifs with hn hz hz <;>
    simp only [nat_and_lor_right, nat_and_chain c.p natM_and128] <;>
    simp_all <;> decide

/-- C8 counterexample: with M selecting 16-bit mode but X selecting 8-bit
mode and A = 0x8000, update_nz_flags_a leaves the negative flag clear even
though bit 15 of the result is set: the test bit is not chosen by the
relevant width flag alone. -/
theorem c8_counterexample :
    cpuC8.mFlag = false ∧
    cpuC8.a &&& 0x8000 ≠ 0 ∧
    ¬ ((cpuC8.updateNzFlagsA.p &&& FLAG_NEGATIVE ≠ 0) ↔ cpuC8.a &&& 0x8000 ≠ 0) :=
  ⟨by decide, by decide, by decide⟩

/-- C8 amended: after update_nz_flags_a/x/y the zero flag reflects whether
the result masked to the relevant width flag's width is zero, as claimed;
but the negative flag tests bit 7 whenever either of M or X selects 8-bit
mode, and tests bit 15 only when both select 16-bit mode — it is not
independent of the other width flag. -/
theorem c8_nz_flags_amended (c : Cpu) :
    ((c.updateNzFlagsA.p &&& FLAG_ZERO ≠ 0) ↔
      (if c.mFlag then c.a &&& 0xFF else c.a) = 0) ∧
    ((c.updateNzFlagsA.p &&& FLAG_NEGATIVE ≠ 0) ↔
      (if c.mFlag then c.a &&& 0xFF else c.a) &&&
        (if c.mFlag ∨ c.xFlag then 0x80 else 0x8000) ≠ 0) ∧
    ((c.updateNzFlagsX.p &&& FLAG_ZERO ≠ 0) ↔
      (if c.xFlag then c.x &&& 0xFF else c.x) = 0) ∧
    ((c.updateNzFlagsX.p &&& FLAG_NEGATIVE ≠ 0) ↔
      (if c.xFlag then c.x &&& 0xFF else c.x) &&&
        (if c.mFlag ∨ c.xFlag then 0x80 else 0x8000) ≠ 0) ∧
    ((c.updateNzFlagsY.p &&& FLAG_ZERO ≠ 0) ↔
      (if c.xFlag then c.y &&& 0xFF else c.y) = 0) ∧
    ((c.updateNzFlagsY.p &&& FLAG_NEGATIVE ≠ 0) ↔
      (if c.xFlag then c.y &&& 0xFF else c.y) &&&
        (if c.mFlag ∨ c.xFlag then 0x80 else 0x8000) ≠ 0) :=
  ⟨updateNz_bit_z c _, updateNz_bit_n c _, updateNz_bit_z c _, updateNz_bit_n c _,
    updateNz_bit_z c _, updateNz_bit_n c _⟩

/-- C5 amended: under a detected HiROM layout only the banks 0xC0..=0xFF
use the HiROM formula rom_index = (bank masked to 0x3F) * 0x10000 + offset;
the banks 0x40..=0x6F ignore the layout entirely and map LoROM-style:
offsets at or above 0x8000 read rom[(bank shifted left 15) or (offset -
0x8000)] and offsets below 0x8000 read 0. -/
theorem c5_hirom_mapping_amended (m : Memory) (bank offset : Nat)
    (hrt : m.romType = RomType.HiRom) (hoff : offset < 0x10000) :
    (0xC0 ≤ bank → bank ≤ 0xFF →
      m.read (bank * 0x10000 + offset) =
        m.romGet ((bank &&& 0x3F) * 0x10000 + offset)) ∧
    (0x40 ≤ bank → bank ≤ 0x6F →
      m.read (bank * 0x10000 + offset) =
        if 0x8000 ≤ offset then m.romGet ((bank <<< 15) ||| (offset - 0x8000))
        else 0) := by
  have hpow : (2 : Nat) ^ 16 = 65536 := by norm_num
  have ho2 : (bank * 0x10000 + offset) % 65536 = offset := by omega
  constructor
  · intro h1 h2
    have hb2 : ((bank * 0x10000 + offset) >>> 16) % 256 = bank := by
      rw [Nat.shiftRight_eq_div_pow, hpow]
      omega
    simp only [Memory.read]
    rw [hb2, ho2]
    rw [if_neg (by omega : ¬ bank ≤ 0x3F), if_neg (by omega : ¬ bank ≤ 0x6F),
      if_neg (by omega : ¬ bank = 0x7E), if_neg (by omega : ¬ bank = 0x7F),
      if_neg (by omega : ¬ (0x80 ≤ bank ∧ bank ≤ 0xBF)),
      if_pos (by omega : 0xC0 ≤ bank)]
    simp only [hrt]
    have harg : ((bank - 0xC0) <<< 16) ||| offset = (bank &&& 0x3F) * 0x10000 + offset := by
      rw [nat_shl16_lor _ _ hoff, nat_and63]
      omega
    rw [harg]
  · intro h1 h2
    have hb2 : ((bank * 0x10000 + offset) >>> 16) % 256 = bank := by
      rw [Nat.shiftRight_eq_div_pow, hpow]
      omega
    simp only [Memory.read]
    rw [hb2, ho2]
    rw [if_neg (by omega : ¬ bank ≤ 0x3F), if_pos (by omega : bank ≤ 0x6F)]

/-- Witness for c5_hirom_mapping_amended at bank 0xC1, offset 0x1234 of
the detected-HiROM memory memC5. -/
theorem c5_hirom_mapping_amended_witness :
    (memC5.romType = RomType.HiRom ∧ 0x1234 < 0x10000) ∧
    memC5.read (0xC1 * 0x10000 + 0x1234) =
      memC5.romGet ((0xC1 &&& 0x3F) * 0x10000 + 0x1234) :=
  ⟨⟨by decide, by decide⟩,
    (c5_hirom_mapping_amended memC5 0xC1 0x1234 (by decide) (by decide)).1
      (by decide) (by decide)⟩

/-- Round trip through the PPU register window: writing a byte at a
register address and reading the same address back yields either the byte
(latched registers) or exactly what the unwritten memory would have read
(write-only data ports and the hardwired-zero status reads). -/
theorem ppu_register_roundtrip (m : Memory) (o v : Nat) :
    (m.writePpuRegisters o v).readPpuRegisters o = v ∨
    (m.writePpuRegisters o v).readPpuRegisters o = m.readPpuRegisters o := by
  unfold Memory.writePpuRegisters
  by_cases p1 : o = 0x2116
  · left; subst p1; simp [Memory.readPpuRegisters, insertReg]
  simp only [if_neg p1]
  by_cases p2 : o = 0x2117
  · left; subst p2; simp [Memory.readPpuRegisters, insertReg]
  simp only [if_neg p2]
  by_cases p3 : o = 0x2118
  · right
    simp only [if_pos p3]
    split_ifs <;> simp_all [Memory.readPpuRegisters]
  simp only [if_neg p3]
  by_cases p4 : o = 0x2119
  · right
    simp only [if_pos p4]
    split_ifs <;> simp_all [Memory.readPpuRegisters]
  simp only [if_neg p4]
  by_cases p5 : o = 0x2102
  · left; subst p5; simp [Memory.readPpuRegisters, insertReg]
  simp only [if_neg p5]
  by_cases p6 : o = 0x2103
  · left; subst p6; simp [Memory.readPpuRegisters, insertReg]
  simp only [if_neg p6]
  by_cases p7 : o = 0x2104
  · right
    simp only [if_pos p7]
    split_ifs <;> simp_all [Memory.readPpuRegisters]
  simp only [if_neg p7]
  by_cases p8 : o = 0x2121
  · left; subst p8; simp [Memory.readPpuRegisters, insertReg]
  simp only [if_neg p8]
  by_cases p9 : o = 0x2122
  · right
    simp only [if_pos p9]
    split_ifs <;> simp_all [Memory.readPpuRegisters]
  simp only [if_neg p9]
  unfold Memory.readPpuRegisters
  by_cases q1 : 0x2134 ≤ o ∧ o ≤ 0x2136
  · left; simp [q1, insertReg]
  simp only [if_neg q1]
  by_cases q2 : o = 0x2137
  · right; simp [q2]
  simp only [if_neg q2]
  by_cases q3 : o = 0x2138
  · right; simp [q3]
  simp only [if_neg q3]
  by_cases q4 : o = 0x2139
  · right; simp [q4]
  simp only [if_neg q4]
  by_cases q5 : o = 0x213A
  · right; simp [q5]
  simp only [if_neg q5]
  by_cases q6 : o = 0x213B
  · right; simp [q6]
  simp only [if_neg q6]
  by_cases q7 : o = 0x213C
  · right; simp [q7]
  simp only [if_neg q7]
  by_cases q8 : o = 0x213D
  · right; simp [q8]
  simp only [if_neg q8]
  by_cases q9 : o = 0x213E
  · right; simp [q9]
  simp only [if_neg q9]
  by_cases q10 : o = 0x213F
  · right; simp [q10]
  simp only [if_neg q10]
  left; simp [insertReg]

/-- C1 counterexample: on a cartridge whose first ROM byte is 0x12, a
write of 0xFF to the ROM window at 0x008000 is discarded and the read
returns the ROM byte 0x12, which is neither the written value nor zero. -/
theorem c1_counterexample :
    Memory.new 1 romC1 = some memC1 ∧
    (memC1.write 0x008000 0xFF).read 0x008000 = 0x12 ∧
    ¬ ((memC1.write 0x008000 0xFF).read 0x008000 = 0xFF ∨
       (memC1.write 0x008000 0xFF).read 0x008000 = 0) :=
  ⟨rfl, by decide, by decide⟩

/-- C1 amended: for every 24-bit address and byte value, a write followed
by a read of the same address yields either the written byte (backed
regions) or exactly the value the read returned before the write: the
unchanged ROM byte in ROM windows, and zero in unmapped regions and
write-only PPU data ports. -/
theorem c1_write_read_amended (m : Memory) (addr v : Nat)
    (ha : addr < 0x1000000) (hv : v < 256) :
    (m.write addr v).read addr = v ∨ (m.write addr v).read addr = m.read addr := by
  simp only [Memory.write]
  by_cases h1 : (addr >>> 16) % 256 ≤ 0x3F
  · simp only [if_pos h1]
    by_cases h2 : addr % 65536 ≤ 0x1FFF
    · left
      simp only [if_pos h2]
      simp [Memory.read, h1, h2]
    simp only [if_neg h2]
    by_cases h3 : 0x2100 ≤ addr % 65536 ∧ addr % 65536 ≤ 0x21FF
    · simp only [if_pos h3]
      have hred : (Memory.writePpuRegisters m (addr % 65536) v).read addr =
          (Memory.writePpuRegisters m (addr % 65536) v).readPpuRegisters (addr % 65536) := by
        simp [Memory.read, h1, h2, h3]
      have hm0 : m.read addr = m.readPpuRegisters (addr % 65536) := by
        simp [Memory.read, h1, h2, h3]
      rw [hred, hm0]
      exact ppu_register_roundtrip m (addr % 65536) v
    simp only [if_neg h3]
    by_cases h4 : 0x4000 ≤ addr % 65536 ∧ addr % 65536 ≤ 0x41FF
    · left
      simp only [if_pos h4]
      simp [Memory.read, Memory.writeApuRegisters, Memory.readApuRegisters,
        h1, h2, h3, h4, insertReg]
    simp only [if_neg h4]
    by_cases h5 : 0x4200 ≤ addr % 65536 ∧ addr % 65536 ≤ 0x44FF
    · left
      simp only [if_pos h5]
      simp [Memory.read, Memory.writeDmaRegisters, Memory.readDmaRegisters,
        h1, h2, h3, h4, h5, insertReg]
    simp only [if_neg h5]
    have h6 : ¬ (0x4016 ≤ addr % 65536 ∧ addr % 65536 ≤ 0x4017) := by omega
    simp only [if_neg h6]
    by_cases h7 : 0x6000 ≤ addr % 65536 ∧ addr % 65536 ≤ 0x7FFF
    · simp only [if_pos h7]
      by_cases g1 : 0 < m.sramSize
      · simp only [if_pos g1]
        by_cases g2 : addr % 65536 - 0x6000 < m.sramLen
        · left
          simp only [if_pos g2]
          simp [Memory.read, Memory.sramGet, h1, h2, h3, h4, h5, h6, h7, g1, g2]
        · simp only [if_neg g2]
          exact Or.inr (by trivial)
      · simp only [if_neg g1]
        exact Or.inr (by trivial)
    simp only [if_neg h7]
    exact Or.inr (by trivial)
  simp only [if_neg h1]
  by_cases hb2 : (addr >>> 16) % 256 ≤ 0x6F
  · simp only [if_pos hb2]
    exact Or.inr (by trivial)
  simp only [if_neg hb2]
  by_cases hb3 : (addr >>> 16) % 256 = 0x7E
  · left
    simp only [if_pos hb3]
    simp [Memory.read, h1, hb2, hb3]
  simp only [if_neg hb3]
  by_cases hb4 : (addr >>> 16) % 256 = 0x7F
  · left
    simp only [if_pos hb4]
    simp [Memory.read, h1, hb2, hb3, hb4]
  simp only [if_neg hb4]
  by_cases hb5 : 0x80 ≤ (addr >>> 16) % 256 ∧ (addr >>> 16) % 256 ≤ 0xBF
  · simp only [if_pos hb5]
    by_cases h2 : addr % 65536 ≤ 0x1FFF
    · left
      simp only [if_pos h2]
      simp [Memory.read, h1, hb2, hb3, hb4, hb5, h2]
    simp only [if_neg h2]
    by_cases h3 : 0x2100 ≤ addr % 65536 ∧ addr % 65536 ≤ 0x21FF
    · simp only [if_pos h3]
      have hred : (Memory.writePpuRegisters m (addr % 65536) v).read addr =
          (Memory.writePpuRegisters m (addr % 65536) v).readPpuRegisters (addr % 65536) := by
        simp [Memory.read, h1, hb2, hb3, hb4, hb5, h2, h3]
      have hm0 : m.read addr = m.readPpuRegisters (addr % 65536) := by
        simp [Memory.read, h1, hb2, hb3, hb4, hb5, h2, h3]
      rw [hred, hm0]
      exact ppu_register_roundtrip m (addr % 65536) v
    simp only [if_neg h3]
    by_cases h4 : 0x4000 ≤ addr % 65536 ∧ addr % 65536 ≤ 0x41FF
    · left
      simp only [if_pos h4]
      simp [Memory.read, Memory.writeApuRegisters, Memory.readApuRegisters,
        h1, hb2, hb3, hb4, hb5, h2, h3, h4, insertReg]
    simp only [if_neg h4]
    by_cases h5 : 0x4200 ≤ addr % 65536 ∧ addr % 65536 ≤ 0x44FF
    · left
      simp only [if_pos h5]
      simp [Memory.read, Memory.writeDmaRegisters, Memory.readDmaRegisters,
        h1, hb2, hb3, hb4, hb5, h2, h3, h4, h5, insertReg]
    simp only [if_neg h5]
    have h6 : ¬ (0x4016 ≤ addr % 65536 ∧ addr % 65536 ≤ 0x4017) := by omega
    simp only [if_neg h6]
    exact Or.inr (by trivial)
  simp only [if_neg hb5]
  exact Or.inr (by trivial)

/-- Witness for c1_write_read_amended: a WRAM write at 0x7E0010 reads
back as written. -/
theorem c1_write_read_amended_witness :
    (0x7E0010 < 0x1000000 ∧ 0xAB < 256) ∧
    ((memC1.write 0x7E0010 0xAB).read 0x7E0010 = 0xAB ∨
     (memC1.write 0x7E0010 0xAB).read 0x7E0010 = memC1.read 0x7E0010) :=
  ⟨⟨by decide, by decide⟩,
    c1_write_read_amended memC1 0x7E0010 0xAB (by decide) (by decide)⟩

/-! Projection lemmas: render_scanline touches only the line buffer and
the framebuffer. -/

@[simp] theorem renderScanline_cycle (p : Ppu) (m : Memory) :
    (p.renderScanline m).cycle = p.cycle := rfl

@[simp] theorem renderScanline_scanline (p : Ppu) (m : Memory) :
    (p.renderScanline m).scanline = p.scanline := rfl

@[simp] theorem renderScanline_frameComplete (p : Ppu) (m : Memory) :
    (p.renderScanline m).frameComplete = p.frameComplete := rfl

@[simp] theorem renderScanline_vblank (p : Ppu) (m : Memory) :
    (p.renderScanline m).vblank = p.vblank := rfl

/-- Stepping the PPU mid-scanline only advances the dot counter and
recomputes hblank. -/
theorem ppuStep_noWrap (p : Ppu) (m : Memory) (h : p.cycle + 1 < 341) :
    Ppu.step p m =
      ({ p with cycle := p.cycle + 1, hblank := decide (256 ≤ p.cycle + 1) }, false) := by
  unfold Ppu.step
  rw [if_neg (by omega)]

/-- Stepping the PPU at dot 340 wraps the dot counter to 0 and advances
the scanline by gAdvance. -/
theorem ppuStep_wrap (p : Ppu) (m : Memory) (h : p.cycle = 340) :
    (Ppu.step p m).1.cycle = 0 ∧ (Ppu.step p m).1.scanline = gAdvance p.scanline := by
  have h341 : 341 ≤ p.cycle + 1 := by omega
  unfold Ppu.step
  rw [if_pos h341]
  by_cases a1 : p.scanline + 1 ≤ 223
  · have hne : ¬ p.scanline + 1 = 262 := by omega
    simp only [if_pos a1]
    by_cases f : p.forcedBlank
    · simp [f, gAdvance, hne]
    · simp [f, gAdvance, hne]
  · simp only [if_neg a1]
    by_cases a2 : p.scanline + 1 = 224
    · have hne : ¬ p.scanline + 1 = 262 := by omega
      simp only [if_pos a2]
      by_cases ne : p.nmiEnabled
      · simp [ne, gAdvance, hne]
      · simp [ne, gAdvance, hne]
    · simp only [if_neg a2]
      by_cases a3 : p.scanline + 1 ≤ 261
      · have hne : ¬ p.scanline + 1 = 262 := by omega
        simp only [if_pos a3]
        simp [gAdvance, hne]
      · simp only [if_neg a3]
        by_cases a4 : p.scanline + 1 = 262
        · simp only [if_pos a4]
          simp [gAdvance, a4]
        · simp only [if_neg a4]
          simp [gAdvance, a4]

/-- runCount unfolds one tick at a time. -/
theorem ppuRunCount_succ (n : Nat) (p : Ppu) (m : Memory) :
    Ppu.runCount (n + 1) p m =
      ((Ppu.runCount n (Ppu.step p m).1 m).1,
        (if 341 ≤ p.cycle + 1 ∧ p.scanline + 1 = 224 then 1 else 0) +
          (Ppu.runCount n (Ppu.step p m).1 m).2) := rfl

/-- runCount splits across a sum of tick counts, concatenating the
frame-raise counts. -/
theorem ppuRunCount_split (a b : Nat) (p : Ppu) (m : Memory) :
    Ppu.runCount (a + b) p m =
      ((Ppu.runCount b (Ppu.runCount a p m).1 m).1,
        (Ppu.runCount a p m).2 + (Ppu.runCount b (Ppu.runCount a p m).1 m).2) := by
  induction a generalizing p with
  | zero => simp [Ppu.runCount]
  | succ n ih =>
    have hx : n + 1 + b = (n + b) + 1 := by omega
    rw [hx]
    simp only [Ppu.runCount]
    rw [ih]
    simp [Nat.add_assoc]

/-- Running n+1 ticks that stay inside one scanline advances only the dot
counter and raises no frame edge. -/
theorem ppuRunCount_noWrap (n : Nat) : ∀ (p : Ppu) (m : Memory), p.cycle + n ≤ 339 →
    (Ppu.runCount (n + 1) p m).1.cycle = p.cycle + n + 1 ∧
    (Ppu.runCount (n + 1) p m).1.scanline = p.scanline ∧
    (Ppu.runCount (n + 1) p m).2 = 0 := by
  induction n with
  | zero =>
    intro p m h
    rw [ppuRunCount_succ]
    rw [ppuStep_noWrap p m (by omega)]
    rw [if_neg (by rintro ⟨h1, _⟩; omega)]
    simp [Ppu.runCount]
  | succ k ih =>
    intro p m h
    rw [ppuRunCount_succ]
    rw [ppuStep_noWrap p m (by omega)]
    rw [if_neg (by rintro ⟨h1, _⟩; omega)]
    set p2 : Ppu := { p with cycle := p.cycle + 1, hblank := decide (256 ≤ p.cycle + 1) }
      with hp2
    have hih := ih p2 m (by show p.cycle + 1 + k ≤ 339; omega)
    have e1 : ((p2, false) : Ppu × Bool).1 = p2 := rfl
    rw [e1]
    refine ⟨?_, ?_, ?_⟩
    · rw [hih.1]
      show p.cycle + 1 + k + 1 = p.cycle + (k + 1) + 1
      omega
    · exact hih.2.1
    · simp [hih.2.2]

/-- runCount for a single tick: the resulting state. -/
theorem ppuRunCount_one_fst (p : Ppu) (m : Memory) :
    (Ppu.runCount 1 p m).1 = (Ppu.step p m).1 := rfl

/-- runCount for a single tick: the frame-raise count. -/
theorem ppuRunCount_one_snd (p : Ppu) (m : Memory) :
    (Ppu.runCount 1 p m).2 =
      (if 341 ≤ p.cycle + 1 ∧ p.scanline + 1 = 224 then 1 else 0) := by
  simp [Ppu.runCount]

/-- One full scanline of 341 ticks from dot 0: the dot counter returns to
0, the scanline advances by gAdvance, and the frame-complete edge is
raised exactly when line 224 was entered. -/
theorem ppuRunCount_scanline (p : Ppu) (m : Memory) (h : p.cycle = 0) :
    (Ppu.runCount 341 p m).1.cycle = 0 ∧
    (Ppu.runCount 341 p m).1.scanline = gAdvance p.scanline ∧
    (Ppu.runCount 341 p m).2 = (if p.scanline + 1 = 224 then 1 else 0) := by
  have hnw := ppuRunCount_noWrap 339 p m (by omega)
  norm_num at hnw
  have hsplit := ppuRunCount_split 340 1 p m
  set q := (Ppu.runCount 340 p m).1 with hq
  have hqc : q.cycle = 340 := by rw [hq, hnw.1]; omega
  have hqs : q.scanline = p.scanline := by rw [hq]; exact hnw.2.1
  have hq2 : (Ppu.runCount 340 p m).2 = 0 := hnw.2.2
  have hw := ppuStep_wrap q m hqc
  have h1 : (Ppu.runCount (340 + 1) p m).1 = (Ppu.runCount 1 q m).1 := by rw [hsplit]
  have h2 : (Ppu.runCount (340 + 1) p m).2 =
      (Ppu.runCount 340 p m).2 + (Ppu.runCount 1 q m).2 := by rw [hsplit]
  rw [(by norm_num : (341 : Nat) = 340 + 1), h1, h2,
    ppuRunCount_one_fst, ppuRunCount_one_snd]
  refine ⟨hw.1, ?_, ?_⟩
  · rw [hw.2, hqs]
  · rw [hq2, hqc, hqs]
    simp

/-- Iterating whole scanlines: 341 * k ticks from dot 0 leave the dot at
0, advance the scanline by k gAdvance steps, and raise gCount k edges. -/
theorem ppuRunCount_iter (k : Nat) : ∀ (p : Ppu) (m : Memory), p.cycle = 0 →
    (Ppu.runCount (341 * k) p m).1.cycle = 0 ∧
    (Ppu.runCount (341 * k) p m).1.scanline = gIter k p.scanline ∧
    (Ppu.runCount (341 * k) p m).2 = gCount k p.scanline := by
  induction k with
  | zero =>
    intro p m h
    simp [Ppu.runCount, gIter, gCount, h]
  | succ n ih =>
    intro p m h
    have hmul : 341 * (n + 1) = 341 + 341 * n := by ring
    have hsplit := ppuRunCount_split 341 (341 * n) p m
    have hs := ppuRunCount_scanline p m h
    have hi := ih (Ppu.runCount 341 p m).1 m hs.1
    have h1 : (Ppu.runCount (341 + 341 * n) p m).1 =
        (Ppu.runCount (341 * n) (Ppu.runCount 341 p m).1 m).1 := by rw [hsplit]
    have h2 : (Ppu.runCount (341 + 341 * n) p m).2 =
        (Ppu.runCount 341 p m).2 +
          (Ppu.runCount (341 * n) (Ppu.runCount 341 p m).1 m).2 := by rw [hsplit]
    rw [hmul, h1, h2]
    refine ⟨hi.1, ?_, ?_⟩
    · rw [hi.2.1, hs.2.1]
      rfl
    · rw [hi.2.2, hs.2.2, hs.2.1]
      rfl

set_option maxHeartbeats 4000000 in
/-- Scanline successor facts: from any line below 262, 262 gAdvance steps
return to the start and exactly one of them enters line 224. -/
theorem gAdvance_period : ∀ s, s < 262 → (gIter 262 s = s ∧ gCount 262 s = 1) := by
  decide

/-- C9: from any PPU state of the specified data model (scanline below
262) with the dot counter aligned at 0, exactly 341 * 262 Ppu::step calls
return the scanline and dot counters to their starting values, and the
frame-complete flag is raised exactly once during those ticks. -/
theorem c9_ppu_frame_period (p : Ppu) (m : Memory)
    (hc : p.cycle = 0) (hs : p.scanline < 262) :
    (Ppu.runCount (341 * 262) p m).1.scanline = p.scanline ∧
    (Ppu.runCount (341 * 262) p m).1.cycle = 0 ∧
    (Ppu.runCount (341 * 262) p m).2 = 1 := by
  have hit := ppuRunCount_iter 262 p m hc
  have hfact := gAdvance_period p.scanline hs
  exact ⟨by rw [hit.2.1, hfact.1], hit.1, by rw [hit.2.2, hfact.2]⟩

/-- Witness for c9_ppu_frame_period at the reset PPU state. -/
theorem c9_ppu_frame_period_witness :
    (Ppu.new.cycle = 0 ∧ Ppu.new.scanline < 262) ∧
    (Ppu.runCount (341 * 262) Ppu.new zeroMem).1.scanline = Ppu.new.scanline :=
  ⟨⟨rfl, by decide⟩, (c9_ppu_frame_period Ppu.new zeroMem rfl (by decide)).1⟩

end Snes
